import Mathlib

/-!
# CraftPaper: stock movements

A shallow embedding of the three handlers of
`BackEnd/src/controllers/movimentacoescontrollers.js` that write to the store
(`criarMovimentacao`, `entradaEstoque`, `saidaEstoque`), and the properties of
the stock counter that follow from them.

Modelling choices.

* A JSON number is a rational; a field of the request body is `none` when it is
  absent or null. Identifiers are natural numbers, texts are strings.
* The tables are not declared in the sources. `produtos` and `clientes` are keyed
  by `id`, so `SELECT ... WHERE id = ?` yields at most one row; `movimentacoes`
  is the list of inserted rows, oldest first. A column left out of an `INSERT`
  holds null.
* Two views of the columns `estoque` and `quantidade`. In the exact store
  (`atender`, `executar`) a column holds the number the statement hands it. In
  the store with integer columns (`atenderColunas`, `executarColunas`), which is
  what the spec declares, a column keeps an integer of that number; the two agree
  whenever the quantities are integers. The claims about the value of the stock
  are settled on the store with integer columns.
* Arithmetic on numbers is exact: the product `quantidade * preco_unitario` is
  the rational product, which the IEEE double of the handlers equals on the
  inputs evaluated here. A note (`observacoes`) is a text or absent.
* A statement passed to `connection.execute` may be refused by the store: the
  oracle `Falhas` says which statements throw, and the handler then runs its
  `catch` block. `semFalhas` is the store that answers every statement.
* Every call made on the connection is logged, in order.
-/

namespace CraftPaper

/-! ## Data model -/

/-- A row of `produtos`, as far as the movement handlers read it. -/
structure Produto where
  nome : String
  estoque : ℚ
deriving DecidableEq

/-- A row of `clientes`, as far as the movement handlers read it. -/
structure Cliente where
  nome : String
deriving DecidableEq

/-- A row of `movimentacoes` (the columns the handlers write). -/
structure Movimentacao where
  produto_id : Nat
  cliente_id : Option Nat
  quantidade : ℚ
  tipo_movimentacao : String
  preco_unitario : Option ℚ
  valor_total : Option ℚ
  observacoes : Option String
deriving DecidableEq

/-- The relational store. -/
structure Banco where
  produtos : Nat → Option Produto
  clientes : Nat → Option Cliente
  movimentacoes : List Movimentacao

/-- The fields the handlers destructure from `req.body`. -/
structure Corpo where
  produto_id : Option Nat
  cliente_id : Option Nat
  quantidade : Option ℚ
  tipo_movimentacao : Option String
  preco_unitario : Option ℚ
  observacoes : Option String
deriving DecidableEq

/-- The sign spliced into the `UPDATE` of `criarMovimentacao`. -/
inductive Operacao
  | mais
  | menos
deriving DecidableEq

/-- The statements the handlers pass to `connection.execute`. -/
inductive Instrucao
  | selectProduto (id : Nat)
  | selectCliente (id : Nat)
  | insertMovimentacao (linha : Movimentacao)
  | updateEstoque (op : Operacao) (quantidade : ℚ) (id : Nat)
deriving DecidableEq

/-- The calls a handler makes on its connection. -/
inductive Chamada
  | beginTransaction
  | execute (i : Instrucao)
  | commit
  | rollback
  | release
deriving DecidableEq

/-- What a refused statement throws: the one code the handlers look at, or any other. -/
inductive ErroBanco
  | ER_NO_REFERENCED_ROW
  | outro
deriving DecidableEq

/-- Which statements the store refuses. -/
abbrev Falhas := Instrucao → Option ErroBanco

/-- The store that answers every statement. -/
def semFalhas : Falhas := fun _ => none

/-- The JSON body of a response (the `insertId` the store assigns is left out). -/
inductive CorpoResposta
  | erro (mensagem : String)
  | estoqueInsuficiente (estoque_atual : ℚ) (quantidade_solicitada : Option ℚ)
  | movimentacaoRegistrada (tipo : String) (produto : String)
  | entradaRegistrada (produto : String) (quantidade : ℚ)
  | vendaRegistrada (produto : String) (cliente : String) (quantidade : ℚ)
      (valor_total : Option ℚ)
deriving DecidableEq

/-- An HTTP response: `res.status(..).json(..)`. -/
structure Resposta where
  status : Nat
  corpo : CorpoResposta
deriving DecidableEq

/-- What a handler leaves behind: its response, the store, and its calls on the connection. -/
structure Resultado where
  resposta : Resposta
  banco : Banco
  chamadas : List Chamada

/-! ## JavaScript operators used by the handlers -/

/-- Truthiness of an identifier: absent, null and 0 are falsy. -/
def truthyId : Option Nat → Bool
  | some n => n != 0
  | none => false

/-- Truthiness of a number: absent, null and 0 are falsy. -/
def truthyNum : Option ℚ → Bool
  | some q => q != 0
  | none => false

/-- Truthiness of a text: absent, null and the empty text are falsy. -/
def truthyStr : Option String → Bool
  | some t => t != ""
  | none => false

/-- The expression `preco_unitario || null`. -/
def precoOuNull (preco : Option ℚ) : Option ℚ :=
  if truthyNum preco then preco else none

/-- The expression `cliente_id || null`. -/
def clienteOuNull (cliente : Option Nat) : Option Nat :=
  if truthyId cliente then cliente else none

/-- The expression `observacoes?.trim() || null` for a note that is a text or absent
(`String.trim` strips space, tab, carriage return and line feed; the `trim` of the
handlers strips further Unicode blanks as well). -/
def observacoesOuNull (obs : Option String) : Option String :=
  if truthyStr (obs.map String.trim) then obs.map String.trim else none

/-- The expression `preco_unitario ? quantidade * preco_unitario : null`, with the exact
product (the handlers multiply IEEE doubles, which can differ from it in the last digit). -/
def valorTotal (quantidade : ℚ) (preco : Option ℚ) : Option ℚ :=
  match preco with
  | some p => if p != 0 then some (quantidade * p) else none
  | none => none

/-! ## The store's statements -/

/-- The statement `UPDATE produtos SET estoque = estoque (+|-) ? WHERE id = ?`, with the
exact value of the expression assigned. What an integer column keeps of that value is
`guardar`, below. -/
def aplicarUpdate (op : Operacao) (quantidade : ℚ) (id : Nat)
    (produtos : Nat → Option Produto) : Nat → Option Produto :=
  fun i =>
    if i = id then
      (produtos i).map fun p =>
        { p with estoque :=
            match op with
            | .mais => p.estoque + quantidade
            | .menos => p.estoque - quantidade }
    else produtos i

/-- The statement `INSERT INTO movimentacoes ... VALUES ...`. -/
def aplicarInsert (linha : Movimentacao) (b : Banco) : Banco :=
  { b with movimentacoes := b.movimentacoes ++ [linha] }

/-- A validation or consistency failure: `rollback`, respond, `release`. The store is
the one the transaction began with. -/
def abortar (b : Banco) (chamadas : List Chamada) (status : Nat) (corpo : CorpoResposta) :
    Resultado :=
  ⟨⟨status, corpo⟩, b, chamadas ++ [.rollback, .release]⟩

/-- The `catch` block of `criarMovimentacao`. -/
def capturarCriar (b : Banco) (chamadas : List Chamada) (e : ErroBanco) : Resultado :=
  match e with
  | .ER_NO_REFERENCED_ROW =>
    ⟨⟨400, .erro "Produto ou cliente inválido"⟩, b, chamadas ++ [.rollback, .release]⟩
  | .outro =>
    ⟨⟨500, .erro "Erro interno do servidor"⟩, b, chamadas ++ [.rollback, .release]⟩

/-- The `catch` block of `entradaEstoque` and of `saidaEstoque`. -/
def capturar (b : Banco) (chamadas : List Chamada) : Resultado :=
  ⟨⟨500, .erro "Erro interno do servidor"⟩, b, chamadas ++ [.rollback, .release]⟩

/-- The writes of a handler: `INSERT` the row, `UPDATE` the stock, `commit`, respond 201.
A refused statement hands over to `captura`, with the store the transaction began with. -/
def gravar (f : Falhas) (b : Banco) (chamadas : List Chamada) (linha : Movimentacao)
    (op : Operacao) (quantidade : ℚ) (produto_id : Nat) (corpo : CorpoResposta)
    (captura : Banco → List Chamada → ErroBanco → Resultado) : Resultado :=
  let ins := Instrucao.insertMovimentacao linha
  let upd := Instrucao.updateEstoque op quantidade produto_id
  match f ins with
  | some e => captura b (chamadas ++ [.execute ins]) e
  | none =>
    let b1 := aplicarInsert linha b
    match f upd with
    | some e => captura b (chamadas ++ [.execute ins, .execute upd]) e
    | none =>
      let b2 := { b1 with produtos := aplicarUpdate op quantidade produto_id b1.produtos }
      ⟨⟨201, corpo⟩, b2, chamadas ++ [.execute ins, .execute upd, .commit, .release]⟩

/-! ## The handlers -/

/-- The part of `criarMovimentacao` after the customer check: stock check for SAIDA,
total value, `INSERT`, `UPDATE`, `commit`. -/
def criarMovimentacaoGravar (f : Falhas) (b : Banco) (chamadas : List Chamada)
    (req : Corpo) (produto_id : Nat) (quantidade : ℚ) (tipo_movimentacao : String)
    (produto : Produto) : Resultado :=
  if tipo_movimentacao = "SAIDA" ∧ produto.estoque < quantidade then
    abortar b chamadas 400 (.estoqueInsuficiente produto.estoque (some quantidade))
  else
    gravar f b chamadas
      { produto_id := produto_id
        cliente_id := clienteOuNull req.cliente_id
        quantidade := quantidade
        tipo_movimentacao := tipo_movimentacao
        preco_unitario := precoOuNull req.preco_unitario
        valor_total := valorTotal quantidade req.preco_unitario
        observacoes := observacoesOuNull req.observacoes }
      (if tipo_movimentacao = "ENTRADA" then .mais else .menos) quantidade produto_id
      (.movimentacaoRegistrada tipo_movimentacao produto.nome)
      capturarCriar

/-- The handler `criarMovimentacao`. -/
def criarMovimentacao (f : Falhas) (b : Banco) (req : Corpo) : Resultado :=
  match req.produto_id, req.quantidade, req.tipo_movimentacao with
  | some produto_id, some quantidade, some tipo_movimentacao =>
    if produto_id = 0 ∨ quantidade = 0 ∨ tipo_movimentacao = "" then
      abortar b [.beginTransaction] 400 (.erro "Produto, quantidade e tipo são obrigatórios")
    else if ¬ (tipo_movimentacao = "ENTRADA" ∨ tipo_movimentacao = "SAIDA") then
      abortar b [.beginTransaction] 400 (.erro "Tipo deve ser ENTRADA ou SAIDA")
    else if quantidade ≤ 0 then
      abortar b [.beginTransaction] 400 (.erro "Quantidade deve ser maior que zero")
    else
      let selP := Instrucao.selectProduto produto_id
      match f selP with
      | some e => capturarCriar b [.beginTransaction, .execute selP] e
      | none =>
        match b.produtos produto_id with
        | none =>
          abortar b [.beginTransaction, .execute selP] 404 (.erro "Produto não encontrado")
        | some produto =>
          match req.cliente_id with
          | some cliente_id =>
            if cliente_id = 0 then
              criarMovimentacaoGravar f b [.beginTransaction, .execute selP] req
                produto_id quantidade tipo_movimentacao produto
            else
              let selC := Instrucao.selectCliente cliente_id
              match f selC with
              | some e => capturarCriar b [.beginTransaction, .execute selP, .execute selC] e
              | none =>
                match b.clientes cliente_id with
                | none =>
                  abortar b [.beginTransaction, .execute selP, .execute selC] 404
                    (.erro "Cliente não encontrado")
                | some _ =>
                  criarMovimentacaoGravar f b
                    [.beginTransaction, .execute selP, .execute selC] req
                    produto_id quantidade tipo_movimentacao produto
          | none =>
            criarMovimentacaoGravar f b [.beginTransaction, .execute selP] req
              produto_id quantidade tipo_movimentacao produto
  | _, _, _ =>
    abortar b [.beginTransaction] 400 (.erro "Produto, quantidade e tipo são obrigatórios")

/-- The handler `entradaEstoque`. Its `INSERT` names no `cliente_id` and no `valor_total`
column. -/
def entradaEstoque (f : Falhas) (b : Banco) (req : Corpo) : Resultado :=
  match req.produto_id, req.quantidade with
  | some produto_id, some quantidade =>
    if produto_id = 0 ∨ quantidade = 0 then
      abortar b [.beginTransaction] 400 (.erro "Produto e quantidade são obrigatórios")
    else if quantidade ≤ 0 then
      abortar b [.beginTransaction] 400 (.erro "Quantidade deve ser maior que zero")
    else
      let selP := Instrucao.selectProduto produto_id
      match f selP with
      | some _ => capturar b [.beginTransaction, .execute selP]
      | none =>
        match b.produtos produto_id with
        | none =>
          abortar b [.beginTransaction, .execute selP] 404 (.erro "Produto não encontrado")
        | some produto =>
          gravar f b [.beginTransaction, .execute selP]
            { produto_id := produto_id
              cliente_id := none
              quantidade := quantidade
              tipo_movimentacao := "ENTRADA"
              preco_unitario := precoOuNull req.preco_unitario
              valor_total := none
              observacoes := observacoesOuNull req.observacoes }
            .mais quantidade produto_id
            (.entradaRegistrada produto.nome quantidade)
            (fun b0 cs _ => capturar b0 cs)
  | _, _ =>
    abortar b [.beginTransaction] 400 (.erro "Produto e quantidade são obrigatórios")

/-- The handler `saidaEstoque`. The stock check comes before the customer lookup. -/
def saidaEstoque (f : Falhas) (b : Banco) (req : Corpo) : Resultado :=
  match req.produto_id, req.quantidade, req.cliente_id with
  | some produto_id, some quantidade, some cliente_id =>
    if produto_id = 0 ∨ quantidade = 0 ∨ cliente_id = 0 then
      abortar b [.beginTransaction] 400
        (.erro "Produto, cliente e quantidade são obrigatórios")
    else if quantidade ≤ 0 then
      abortar b [.beginTransaction] 400 (.erro "Quantidade deve ser maior que zero")
    else
      let selP := Instrucao.selectProduto produto_id
      match f selP with
      | some _ => capturar b [.beginTransaction, .execute selP]
      | none =>
        match b.produtos produto_id with
        | none =>
          abortar b [.beginTransaction, .execute selP] 404 (.erro "Produto não encontrado")
        | some produto =>
          if produto.estoque < quantidade then
            abortar b [.beginTransaction, .execute selP] 400
              (.estoqueInsuficiente produto.estoque none)
          else
            let selC := Instrucao.selectCliente cliente_id
            match f selC with
            | some _ => capturar b [.beginTransaction, .execute selP, .execute selC]
            | none =>
              match b.clientes cliente_id with
              | none =>
                abortar b [.beginTransaction, .execute selP, .execute selC] 404
                  (.erro "Cliente não encontrado")
              | some cliente =>
                gravar f b [.beginTransaction, .execute selP, .execute selC]
                  { produto_id := produto_id
                    cliente_id := some cliente_id
                    quantidade := quantidade
                    tipo_movimentacao := "SAIDA"
                    preco_unitario := precoOuNull req.preco_unitario
                    valor_total := valorTotal quantidade req.preco_unitario
                    observacoes := observacoesOuNull req.observacoes }
                  .menos quantidade produto_id
                  (.vendaRegistrada produto.nome cliente.nome quantidade
                    (valorTotal quantidade req.preco_unitario))
                  (fun b0 cs _ => capturar b0 cs)
  | _, _, _ =>
    abortar b [.beginTransaction] 400
      (.erro "Produto, cliente e quantidade são obrigatórios")

/-! ## Sequential execution -/

/-- A request to one of the three writing endpoints. -/
inductive Pedido
  | criar (req : Corpo)
  | entrada (req : Corpo)
  | saida (req : Corpo)
deriving DecidableEq

/-- Route a request to its handler. -/
def atender (f : Falhas) (b : Banco) : Pedido → Resultado
  | .criar req => criarMovimentacao f b req
  | .entrada req => entradaEstoque f b req
  | .saida req => saidaEstoque f b req

/-- The body of a request. -/
def Pedido.corpo : Pedido → Corpo
  | .criar req => req
  | .entrada req => req
  | .saida req => req

/-- The same request with another unit price. -/
def Pedido.comPreco (p : Pedido) (preco : Option ℚ) : Pedido :=
  match p with
  | .criar req => .criar { req with preco_unitario := preco }
  | .entrada req => .entrada { req with preco_unitario := preco }
  | .saida req => .saida { req with preco_unitario := preco }

/-- Requests executed one after another, each on the store the previous one left. -/
def executar (b : Banco) : List (Falhas × Pedido) → Banco
  | [] => b
  | fp :: resto => executar (atender fp.1 b fp.2).banco resto

/-- The stock of a product, when the product exists. -/
def estoqueDe (b : Banco) (id : Nat) : Option ℚ :=
  (b.produtos id).map Produto.estoque

/-- The sum of the quantities of the rows of one kind recorded for one product. -/
def somaQuantidades (tipo : String) (id : Nat) (ms : List Movimentacao) : ℚ :=
  ((ms.filter fun m => m.produto_id = id ∧ m.tipo_movimentacao = tipo).map
    Movimentacao.quantidade).sum

/-- The store after a committed movement: the row appended, the stock moved. -/
def efeito (b : Banco) (linha : Movimentacao) (op : Operacao) : Banco :=
  { produtos := aplicarUpdate op linha.quantidade linha.produto_id b.produtos
    clientes := b.clientes
    movimentacoes := b.movimentacoes ++ [linha] }

/-- What the handlers have checked before they write a row: a positive quantity, an
existing product, a kind that agrees with the sign of the update and, for SAIDA,
enough stock. -/
def Admissivel (b : Banco) (linha : Movimentacao) (op : Operacao) : Prop :=
  0 < linha.quantidade ∧
  ∃ p, b.produtos linha.produto_id = some p ∧
    ((op = .mais ∧ linha.tipo_movimentacao = "ENTRADA") ∨
     (op = .menos ∧ linha.tipo_movimentacao = "SAIDA" ∧ linha.quantidade ≤ p.estoque))

/-- The invariant of the stock counter: the stock of product `id` is `s0` plus the
recorded ENTRADA quantities minus the recorded SAIDA quantities. -/
def Coerente (b : Banco) (id : Nat) (s0 : ℚ) : Prop :=
  estoqueDe b id = some (s0 + somaQuantidades "ENTRADA" id b.movimentacoes
    - somaQuantidades "SAIDA" id b.movimentacoes)

/-- No product has a negative stock. -/
def EstoqueNaoNegativo (b : Banco) : Prop :=
  ∀ id p, b.produtos id = some p → 0 ≤ p.estoque

/-! ## Concrete stores and requests -/

/-- A store with one product (stock 10), one customer and no movement rows. -/
def bancoExemplo : Banco :=
  { produtos := fun i => if i = 1 then some ⟨"Papel A4", 10⟩ else none
    clientes := fun i => if i = 1 then some ⟨"Ana"⟩ else none
    movimentacoes := [] }

/-- A sale of 7 units of product 1 to customer 1 at unit price 2. -/
def vendaExemplo : Corpo :=
  { produto_id := some 1, cliente_id := some 1, quantidade := some 7,
    tipo_movimentacao := some "SAIDA", preco_unitario := some 2, observacoes := none }

/-- A stock-in of 5 units of product 1 at unit price 2. -/
def entradaExemplo : Corpo :=
  { produto_id := some 1, cliente_id := none, quantidade := some 5,
    tipo_movimentacao := some "ENTRADA", preco_unitario := some 2, observacoes := none }

/-- A sale of 11 units of product 1 to customer 1: more than the stock of `bancoExemplo`. -/
def vendaGrande : Corpo :=
  { produto_id := some 1, cliente_id := some 1, quantidade := some 11,
    tipo_movimentacao := some "SAIDA", preco_unitario := none, observacoes := none }

/-- A sale of 7 units of product 2, which `bancoExemplo` does not have. -/
def vendaProdutoInexistente : Corpo :=
  { produto_id := some 2, cliente_id := some 1, quantidade := some 7,
    tipo_movimentacao := some "SAIDA", preco_unitario := none, observacoes := none }

/-- A request with quantity 0 and kind INVALID. -/
def pedidoInvalido : Corpo :=
  { produto_id := some 1, cliente_id := some 1, quantidade := some 0,
    tipo_movimentacao := some "INVALID", preco_unitario := none, observacoes := none }

/-- A sale of 11 units of product 1 to customer 99, whom `bancoExemplo` does not have. -/
def vendaGrandeClienteInexistente : Corpo :=
  { produto_id := some 1, cliente_id := some 99, quantidade := some 11,
    tipo_movimentacao := none, preco_unitario := none, observacoes := none }

/-- A sale of 7 units of product 1 to customer 99, whom `bancoExemplo` does not have. -/
def vendaClienteInexistente : Corpo :=
  { produto_id := some 1, cliente_id := some 99, quantidade := some 7,
    tipo_movimentacao := none, preco_unitario := none, observacoes := none }

/-- A stock-in of one unit and a half of product 1. -/
def entradaFracionada : Corpo :=
  { produto_id := some 1, cliente_id := none, quantidade := some (3 / 2),
    tipo_movimentacao := some "ENTRADA", preco_unitario := none, observacoes := none }

/-- A sale of one unit and a half of product 1 to customer 1. -/
def vendaFracionada : Corpo :=
  { produto_id := some 1, cliente_id := some 1, quantidade := some (3 / 2),
    tipo_movimentacao := some "SAIDA", preco_unitario := none, observacoes := none }

/-- A sale of 7 units of product 1 to customer 1 at unit price -2. -/
def vendaPrecoNegativo : Corpo :=
  { produto_id := some 1, cliente_id := some 1, quantidade := some 7,
    tipo_movimentacao := some "SAIDA", preco_unitario := some (-2), observacoes := none }

/-- A store with one product (stock 0), one customer and no movement rows. -/
def bancoSemEstoque : Banco :=
  { produtos := fun i => if i = 1 then some ⟨"Papel A4", 0⟩ else none
    clientes := fun i => if i = 1 then some ⟨"Ana"⟩ else none
    movimentacoes := [] }

/-- A stock-in of 5 units of product 1 at unit price 0. -/
def entradaPrecoZero : Corpo :=
  { produto_id := some 1, cliente_id := none, quantidade := some 5,
    tipo_movimentacao := some "ENTRADA", preco_unitario := some 0, observacoes := none }

/-- A request refused at validation: answered 400, the store untouched, and no statement
executed on the connection (the transaction is opened and rolled back). -/
def RejeitadaSemConsulta (b : Banco) (r : Resultado) : Prop :=
  r.resposta.status = 400 ∧ r.banco = b ∧
    r.chamadas = [.beginTransaction, .rollback, .release]

/-! ## Two requests at once

Each handler reads and checks first (`SELECT`s and the comparisons on what they return) and
writes afterwards (`INSERT`, `UPDATE`, `commit`). With two requests in flight the store may
run the steps of one between the steps of the other. The `UPDATE` is relative
(`estoque = estoque - ?`) and carries no condition on the stock, so it applies to the stock
as it is when the step runs. The store answers every statement here. -/

/-- What a handler that has passed its checks is about to write. -/
structure Escrita where
  linha : Movimentacao
  op : Operacao
  corpo : CorpoResposta
deriving DecidableEq

/-- The read/check step of `saidaEstoque`: the response of a failed check, or the write the
handler goes on to. -/
def saidaEstoqueLer (b : Banco) (req : Corpo) : Resposta ⊕ Escrita :=
  match req.produto_id, req.quantidade, req.cliente_id with
  | some produto_id, some quantidade, some cliente_id =>
    if produto_id = 0 ∨ quantidade = 0 ∨ cliente_id = 0 then
      .inl ⟨400, .erro "Produto, cliente e quantidade são obrigatórios"⟩
    else if quantidade ≤ 0 then
      .inl ⟨400, .erro "Quantidade deve ser maior que zero"⟩
    else
      match b.produtos produto_id with
      | none => .inl ⟨404, .erro "Produto não encontrado"⟩
      | some produto =>
        if produto.estoque < quantidade then
          .inl ⟨400, .estoqueInsuficiente produto.estoque none⟩
        else
          match b.clientes cliente_id with
          | none => .inl ⟨404, .erro "Cliente não encontrado"⟩
          | some cliente =>
            .inr
              { linha :=
                  { produto_id := produto_id
                    cliente_id := some cliente_id
                    quantidade := quantidade
                    tipo_movimentacao := "SAIDA"
                    preco_unitario := precoOuNull req.preco_unitario
                    valor_total := valorTotal quantidade req.preco_unitario
                    observacoes := observacoesOuNull req.observacoes }
                op := .menos
                corpo := .vendaRegistrada produto.nome cliente.nome quantidade
                  (valorTotal quantidade req.preco_unitario) }
  | _, _, _ => .inl ⟨400, .erro "Produto, cliente e quantidade são obrigatórios"⟩

/-- The part of the read/check step of `criarMovimentacao` after the customer check. -/
def criarMovimentacaoLerEstoque (req : Corpo) (produto_id : Nat) (quantidade : ℚ)
    (tipo_movimentacao : String) (produto : Produto) : Resposta ⊕ Escrita :=
  if tipo_movimentacao = "SAIDA" ∧ produto.estoque < quantidade then
    .inl ⟨400, .estoqueInsuficiente produto.estoque (some quantidade)⟩
  else
    .inr
      { linha :=
          { produto_id := produto_id
            cliente_id := clienteOuNull req.cliente_id
            quantidade := quantidade
            tipo_movimentacao := tipo_movimentacao
            preco_unitario := precoOuNull req.preco_unitario
            valor_total := valorTotal quantidade req.preco_unitario
            observacoes := observacoesOuNull req.observacoes }
        op := if tipo_movimentacao = "ENTRADA" then .mais else .menos
        corpo := .movimentacaoRegistrada tipo_movimentacao produto.nome }

/-- The read/check step of `criarMovimentacao`. -/
def criarMovimentacaoLer (b : Banco) (req : Corpo) : Resposta ⊕ Escrita :=
  match req.produto_id, req.quantidade, req.tipo_movimentacao with
  | some produto_id, some quantidade, some tipo_movimentacao =>
    if produto_id = 0 ∨ quantidade = 0 ∨ tipo_movimentacao = "" then
      .inl ⟨400, .erro "Produto, quantidade e tipo são obrigatórios"⟩
    else if ¬ (tipo_movimentacao = "ENTRADA" ∨ tipo_movimentacao = "SAIDA") then
      .inl ⟨400, .erro "Tipo deve ser ENTRADA ou SAIDA"⟩
    else if quantidade ≤ 0 then
      .inl ⟨400, .erro "Quantidade deve ser maior que zero"⟩
    else
      match b.produtos produto_id with
      | none => .inl ⟨404, .erro "Produto não encontrado"⟩
      | some produto =>
        match req.cliente_id with
        | some cliente_id =>
          if cliente_id = 0 then
            criarMovimentacaoLerEstoque req produto_id quantidade tipo_movimentacao produto
          else
            match b.clientes cliente_id with
            | none => .inl ⟨404, .erro "Cliente não encontrado"⟩
            | some _ =>
              criarMovimentacaoLerEstoque req produto_id quantidade tipo_movimentacao produto
        | none =>
          criarMovimentacaoLerEstoque req produto_id quantidade tipo_movimentacao produto
  | _, _, _ => .inl ⟨400, .erro "Produto, quantidade e tipo são obrigatórios"⟩

/-- A request run alone from its checks to its end: the store it leaves and its response. -/
def concluir (b : Banco) : Resposta ⊕ Escrita → Banco × Resposta
  | .inl r => (b, r)
  | .inr w => (efeito b w.linha w.op, ⟨201, w.corpo⟩)

/-- Where a request in flight stands. -/
inductive Etapa
  | aguardando
  | verificado (w : Escrita)
  | terminado (r : Resposta)
deriving DecidableEq

/-- One step of a request in flight: its read/check step, then its insert/update step. -/
def passo (ler : Banco → Corpo → Resposta ⊕ Escrita) (req : Corpo) (b : Banco) :
    Etapa → Banco × Etapa
  | .aguardando =>
    match ler b req with
    | .inl r => (b, .terminado r)
    | .inr w => (b, .verificado w)
  | .verificado w => (efeito b w.linha w.op, .terminado ⟨201, w.corpo⟩)
  | .terminado r => (b, .terminado r)

/-- The store and the two requests in flight. -/
structure Sistema where
  banco : Banco
  primeira : Etapa
  segunda : Etapa

/-- Run a schedule: `false` lets the first request take its next step, `true` the second. -/
def intercalar (ler : Banco → Corpo → Resposta ⊕ Escrita) (req1 req2 : Corpo) :
    List Bool → Sistema → Sistema
  | [], s => s
  | false :: resto, s =>
    intercalar ler req1 req2 resto
      ⟨(passo ler req1 s.banco s.primeira).1, (passo ler req1 s.banco s.primeira).2, s.segunda⟩
  | true :: resto, s =>
    intercalar ler req1 req2 resto
      ⟨(passo ler req2 s.banco s.segunda).1, s.primeira, (passo ler req2 s.banco s.segunda).2⟩

/-- A sale of 7 units of product 1 to customer 1, no unit price. -/
def vendaSete : Corpo :=
  { produto_id := some 1, cliente_id := some 1, quantidade := some 7,
    tipo_movimentacao := some "SAIDA", preco_unitario := none, observacoes := none }

/-! ## Integer columns

The exact store above keeps in every column the number a statement hands it. The tables
are not declared in the sources; the spec gives the stock of a product and the quantity of
a movement as integer columns, and the handlers do not test that a quantity is an integer.
What follows is the store with those two columns integer: a number assigned to one of
them is kept as `col` of it, for a function `col` from numbers to integers (the width of
the columns is declared nowhere and is not modelled). -/

/-- The nearest integer, halves away from zero: what a MySQL store keeps of a number
assigned to an integer column. -/
def arredondar (x : ℚ) : ℤ :=
  if 0 ≤ x then ⌊x + 1 / 2⌋ else -⌊-x + 1 / 2⌋

/-- Modelled from the spec: the declaration of the tables is missing from the sources; the
spec gives `produtos.estoque` and `movimentacoes.quantidade` as integer columns. This is
the store `b` as those columns keep it: every stock and every recorded quantity replaced
by `col` of it. -/
def guardar (col : ℚ → ℤ) (b : Banco) : Banco :=
  { produtos := fun i => (b.produtos i).map fun p => { p with estoque := (col p.estoque : ℚ) }
    clientes := b.clientes
    movimentacoes := b.movimentacoes.map fun m => { m with quantidade := (col m.quantidade : ℚ) } }

/-- A store that integer columns can hold: every stock and every recorded quantity is an
integer. -/
def Inteiro (b : Banco) : Prop :=
  (∀ id p, b.produtos id = some p → ∃ n : ℤ, p.estoque = n) ∧
  (∀ m ∈ b.movimentacoes, ∃ n : ℤ, m.quantidade = n)

/-- Modelled from the spec: a request on the store with integer columns. The handler runs
as written; its `INSERT` and its `UPDATE` compute with the numbers of the request, and the
columns `quantidade` and `estoque` keep `col` of what is assigned to them. On a store
that holds integers only, that is `guardar` of the store the handler leaves: the values
the handler did not write are integers already. -/
def atenderColunas (col : ℚ → ℤ) (f : Falhas) (b : Banco) (p : Pedido) : Resultado :=
  { resposta := (atender f b p).resposta
    banco := guardar col (atender f b p).banco
    chamadas := (atender f b p).chamadas }

/-- Requests executed one after another on the store with integer columns. -/
def executarColunas (col : ℚ → ℤ) (b : Banco) : List (Falhas × Pedido) → Banco
  | [] => b
  | fp :: resto => executarColunas col (atenderColunas col fp.1 b fp.2).banco resto

/-- A request whose quantity, when it has one, is an integer. -/
def QuantidadeInteira (p : Pedido) : Prop :=
  ∀ q, p.corpo.quantidade = some q → ∃ n : ℤ, q = n

/-- A store with one product (stock 11), one customer and no movement rows. -/
def bancoOnze : Banco :=
  { produtos := fun i => if i = 1 then some ⟨"Papel A4", 11⟩ else none
    clientes := fun i => if i = 1 then some ⟨"Ana"⟩ else none
    movimentacoes := [] }

/-- The row a request asks for: its product, its quantity and its unit price as the
handlers pass it to the `INSERT`. -/
def Registra (req : Corpo) (linha : Movimentacao) : Prop :=
  req.produto_id = some linha.produto_id ∧ req.quantidade = some linha.quantidade ∧
    linha.preco_unitario = precoOuNull req.preco_unitario

/-- The two ways a handler ends: the store as it was and a status other than 201, or one
admissible movement committed and status 201. -/
def Desfecho (b : Banco) (req : Corpo) (r : Resultado) : Prop :=
  (r.banco = b ∧ r.resposta.status ≠ 201) ∨
  ∃ linha op, Admissivel b linha op ∧ Registra req linha ∧
    r.banco = efeito b linha op ∧ r.resposta.status = 201

/-- The kind of movement a request asks for: the field of the body for
`criarMovimentacao`, the literal of the `INSERT` for the two other handlers. -/
def Pedido.tipo : Pedido → Option String
  | .criar req => req.tipo_movimentacao
  | .entrada _ => some "ENTRADA"
  | .saida _ => some "SAIDA"

/-- A handler that answers 201 has appended one row of the kind `tipo`. -/
def RegistraTipo (b : Banco) (tipo : Option String) (r : Resultado) : Prop :=
  r.resposta.status = 201 →
    ∃ linha, r.banco.movimentacoes = b.movimentacoes ++ [linha] ∧
      some linha.tipo_movimentacao = tipo

/-! ## Shared lemmas -/

theorem gravar_desfecho (f : Falhas) (b : Banco) (cs : List Chamada) (linha : Movimentacao)
    (op : Operacao) (corpo : CorpoResposta)
    (captura : Banco → List Chamada → ErroBanco → Resultado)
    (hc : ∀ cs e, (captura b cs e).banco = b ∧ (captura b cs e).resposta.status ≠ 201) :
    ((gravar f b cs linha op linha.quantidade linha.produto_id corpo captura).banco = b ∧
      (gravar f b cs linha op linha.quantidade linha.produto_id corpo captura).resposta.status
        ≠ 201) ∨
    ((gravar f b cs linha op linha.quantidade linha.produto_id corpo captura).banco
        = efeito b linha op ∧
      (gravar f b cs linha op linha.quantidade linha.produto_id corpo captura).resposta.status
        = 201) := by
  unfold gravar
  simp only
  split
  · left; exact hc _ _
  · split
    · left; exact hc _ _
    · right; exact ⟨rfl, rfl⟩

theorem capturarCriar_desfecho (b : Banco) (cs : List Chamada) (e : ErroBanco) :
    (capturarCriar b cs e).banco = b ∧ (capturarCriar b cs e).resposta.status ≠ 201 := by
  cases e
  · exact ⟨rfl, show (400 : Nat) ≠ 201 by decide⟩
  · exact ⟨rfl, show (500 : Nat) ≠ 201 by decide⟩

theorem capturar_desfecho (b : Banco) (cs : List Chamada) :
    (capturar b cs).banco = b ∧ (capturar b cs).resposta.status ≠ 201 :=
  ⟨rfl, show (500 : Nat) ≠ 201 by decide⟩

theorem abortar_desfecho (b : Banco) (cs : List Chamada) (status : Nat) (corpo : CorpoResposta)
    (h : status ≠ 201) :
    (abortar b cs status corpo).banco = b ∧ (abortar b cs status corpo).resposta.status ≠ 201 :=
  ⟨rfl, h⟩

theorem criarMovimentacaoGravar_desfecho (f : Falhas) (b : Banco) (cs : List Chamada)
    (req : Corpo) (pid : Nat) (q : ℚ) (t : String) (produto : Produto)
    (hpid : req.produto_id = some pid) (hqr : req.quantidade = some q)
    (hq : 0 < q) (ht : t = "ENTRADA" ∨ t = "SAIDA") (hp : b.produtos pid = some produto) :
    Desfecho b req (criarMovimentacaoGravar f b cs req pid q t produto) := by
  unfold Desfecho criarMovimentacaoGravar
  split
  · left; exact abortar_desfecho _ _ _ _ (by decide)
  · rename_i hs
    rcases gravar_desfecho f b cs
        { produto_id := pid
          cliente_id := clienteOuNull req.cliente_id
          quantidade := q
          tipo_movimentacao := t
          preco_unitario := precoOuNull req.preco_unitario
          valor_total := valorTotal q req.preco_unitario
          observacoes := observacoesOuNull req.observacoes }
        (if t = "ENTRADA" then .mais else .menos)
        (.movimentacaoRegistrada t produto.nome) capturarCriar
        (capturarCriar_desfecho b) with h | h
    · left; exact h
    · right
      refine ⟨_, _, ⟨hq, produto, hp, ?_⟩, ⟨hpid, hqr, rfl⟩, h⟩
      rcases ht with ht | ht
      · left; simp [ht]
      · right
        subst ht
        refine ⟨by simp, rfl, ?_⟩
        simp only [true_and, not_lt] at hs
        exact hs

theorem criarMovimentacao_desfecho (f : Falhas) (b : Banco) (req : Corpo) :
    Desfecho b req (criarMovimentacao f b req) := by
  unfold criarMovimentacao
  split
  · rename_i pid q t hpid hqr _
    split
    · left; exact abortar_desfecho _ _ _ _ (by decide)
    · split
      · left; exact abortar_desfecho _ _ _ _ (by decide)
      · split
        · left; exact abortar_desfecho _ _ _ _ (by decide)
        · rename_i h1 h2 h3
          have hq : 0 < q := lt_of_not_ge h3
          have ht : t = "ENTRADA" ∨ t = "SAIDA" := not_not.mp h2
          simp only
          split
          · left; exact capturarCriar_desfecho _ _ _
          · split
            · left; exact abortar_desfecho _ _ _ _ (by decide)
            · rename_i produto hp
              split
              · split
                · exact criarMovimentacaoGravar_desfecho f b _ req pid q t produto
                    hpid hqr hq ht hp
                · split
                  · left; exact capturarCriar_desfecho _ _ _
                  · split
                    · left; exact abortar_desfecho _ _ _ _ (by decide)
                    · exact criarMovimentacaoGravar_desfecho f b _ req pid q t produto
                        hpid hqr hq ht hp
              · exact criarMovimentacaoGravar_desfecho f b _ req pid q t produto
                  hpid hqr hq ht hp
  · left; exact abortar_desfecho _ _ _ _ (by decide)

theorem entradaEstoque_desfecho (f : Falhas) (b : Banco) (req : Corpo) :
    Desfecho b req (entradaEstoque f b req) := by
  unfold entradaEstoque
  split
  · rename_i pid q hpid hqr
    split
    · left; exact abortar_desfecho _ _ _ _ (by decide)
    · split
      · left; exact abortar_desfecho _ _ _ _ (by decide)
      · rename_i h1 h3
        have hq : 0 < q := lt_of_not_ge h3
        simp only
        split
        · left; exact capturar_desfecho _ _
        · split
          · left; exact abortar_desfecho _ _ _ _ (by decide)
          · rename_i produto hp
            rcases gravar_desfecho f b [.beginTransaction, .execute (.selectProduto pid)]
                { produto_id := pid
                  cliente_id := none
                  quantidade := q
                  tipo_movimentacao := "ENTRADA"
                  preco_unitario := precoOuNull req.preco_unitario
                  valor_total := none
                  observacoes := observacoesOuNull req.observacoes }
                .mais (.entradaRegistrada produto.nome q) (fun b0 cs _ => capturar b0 cs)
                (fun _ _ => capturar_desfecho _ _) with h | h
            · left; exact h
            · right
              exact ⟨_, _, ⟨hq, produto, hp, Or.inl ⟨rfl, rfl⟩⟩, ⟨hpid, hqr, rfl⟩, h⟩
  · left; exact abortar_desfecho _ _ _ _ (by decide)

theorem saidaEstoque_desfecho (f : Falhas) (b : Banco) (req : Corpo) :
    Desfecho b req (saidaEstoque f b req) := by
  unfold saidaEstoque
  split
  · rename_i pid q cid hpid hqr _
    split
    · left; exact abortar_desfecho _ _ _ _ (by decide)
    · split
      · left; exact abortar_desfecho _ _ _ _ (by decide)
      · rename_i h1 h3
        have hq : 0 < q := lt_of_not_ge h3
        simp only
        split
        · left; exact capturar_desfecho _ _
        · split
          · left; exact abortar_desfecho _ _ _ _ (by decide)
          · rename_i produto hp
            split
            · left; exact abortar_desfecho _ _ _ _ (by decide)
            · rename_i hs
              split
              · left; exact capturar_desfecho _ _
              · split
                · left; exact abortar_desfecho _ _ _ _ (by decide)
                · rename_i cliente hc
                  rcases gravar_desfecho f b
                      [.beginTransaction, .execute (.selectProduto pid),
                        .execute (.selectCliente cid)]
                      { produto_id := pid
                        cliente_id := some cid
                        quantidade := q
                        tipo_movimentacao := "SAIDA"
                        preco_unitario := precoOuNull req.preco_unitario
                        valor_total := valorTotal q req.preco_unitario
                        observacoes := observacoesOuNull req.observacoes }
                      .menos
                      (.vendaRegistrada produto.nome cliente.nome q
                        (valorTotal q req.preco_unitario))
                      (fun b0 cs _ => capturar b0 cs)
                      (fun _ _ => capturar_desfecho _ _) with h | h
                  · left; exact h
                  · right
                    exact ⟨_, _, ⟨hq, produto, hp, Or.inr ⟨rfl, rfl, not_lt.mp hs⟩⟩,
                      ⟨hpid, hqr, rfl⟩, h⟩
  · left; exact abortar_desfecho _ _ _ _ (by decide)

/-- Every request leaves the store as it was, or commits one admissible movement and is
answered 201. -/
theorem atender_desfecho (f : Falhas) (b : Banco) (p : Pedido) :
    Desfecho b p.corpo (atender f b p) := by
  cases p with
  | criar req => exact criarMovimentacao_desfecho f b req
  | entrada req => exact entradaEstoque_desfecho f b req
  | saida req => exact saidaEstoque_desfecho f b req

theorem precoOuNull_casos (x : Option ℚ) :
    precoOuNull x = none ∨ ∃ v, v ≠ 0 ∧ x = some v ∧ precoOuNull x = some v := by
  cases x with
  | none => left; rfl
  | some v =>
    by_cases hv : v = 0
    · left; simp [precoOuNull, truthyNum, hv]
    · right; exact ⟨v, hv, rfl, by simp [precoOuNull, truthyNum, hv]⟩

theorem criarMovimentacaoGravar_status (b : Banco) (cs cs2 : List Chamada) (req req2 : Corpo)
    (pid : Nat) (q : ℚ) (t : String) (produto : Produto) :
    (criarMovimentacaoGravar semFalhas b cs req pid q t produto).resposta.status
      = (criarMovimentacaoGravar semFalhas b cs2 req2 pid q t produto).resposta.status := by
  unfold criarMovimentacaoGravar
  split
  · rfl
  · rfl

theorem criarMovimentacao_status_preco (b : Banco) (req : Corpo) (x : Option ℚ) :
    (criarMovimentacao semFalhas b { req with preco_unitario := x }).resposta.status
      = (criarMovimentacao semFalhas b req).resposta.status := by
  obtain ⟨pid, cid, q, t, pr, obs⟩ := req
  unfold criarMovimentacao
  simp only [semFalhas]
  split
  · split
    · rfl
    · split
      · rfl
      · split
        · rfl
        · split
          · rfl
          · split
            · split
              · exact criarMovimentacaoGravar_status _ _ _ _ _ _ _ _ _
              · split
                · rfl
                · exact criarMovimentacaoGravar_status _ _ _ _ _ _ _ _ _
            · exact criarMovimentacaoGravar_status _ _ _ _ _ _ _ _ _
  · rfl

theorem entradaEstoque_status_preco (b : Banco) (req : Corpo) (x : Option ℚ) :
    (entradaEstoque semFalhas b { req with preco_unitario := x }).resposta.status
      = (entradaEstoque semFalhas b req).resposta.status := by
  obtain ⟨pid, cid, q, t, pr, obs⟩ := req
  unfold entradaEstoque
  simp only [semFalhas]
  split
  · split
    · rfl
    · split
      · rfl
      · split
        · rfl
        · rfl
  · rfl

theorem saidaEstoque_status_preco (b : Banco) (req : Corpo) (x : Option ℚ) :
    (saidaEstoque semFalhas b { req with preco_unitario := x }).resposta.status
      = (saidaEstoque semFalhas b req).resposta.status := by
  obtain ⟨pid, cid, q, t, pr, obs⟩ := req
  unfold saidaEstoque
  simp only [semFalhas]
  split
  · split
    · rfl
    · split
      · rfl
      · split
        · rfl
        · split
          · rfl
          · split
            · rfl
            · rfl
  · rfl

/-- Two steps of a request run alone: the checks, then the writes if the checks passed. -/
theorem passo_duas_vezes (ler : Banco → Corpo → Resposta ⊕ Escrita) (req : Corpo) (b : Banco) :
    passo ler req (passo ler req b .aguardando).1 (passo ler req b .aguardando).2
      = ((concluir b (ler b req)).1, .terminado (concluir b (ler b req)).2) := by
  simp only [passo]
  cases ler b req <;> rfl

/-- Run alone, the two steps of `saidaEstoque` are the handler. -/
theorem saidaEstoque_duas_etapas (b : Banco) (req : Corpo) :
    concluir b (saidaEstoqueLer b req)
      = ((saidaEstoque semFalhas b req).banco, (saidaEstoque semFalhas b req).resposta) := by
  unfold saidaEstoque saidaEstoqueLer
  simp only [semFalhas]
  split
  · split
    · rfl
    · split
      · rfl
      · split
        · rfl
        · split
          · rfl
          · split
            · rfl
            · rfl
  · rfl

theorem criarMovimentacaoGravar_duas_etapas (b : Banco) (cs : List Chamada) (req : Corpo)
    (pid : Nat) (q : ℚ) (t : String) (produto : Produto) :
    concluir b (criarMovimentacaoLerEstoque req pid q t produto)
      = ((criarMovimentacaoGravar semFalhas b cs req pid q t produto).banco,
          (criarMovimentacaoGravar semFalhas b cs req pid q t produto).resposta) := by
  unfold criarMovimentacaoGravar criarMovimentacaoLerEstoque
  split
  · rfl
  · rfl

/-- Run alone, the two steps of `criarMovimentacao` are the handler. -/
theorem criarMovimentacao_duas_etapas (b : Banco) (req : Corpo) :
    concluir b (criarMovimentacaoLer b req)
      = ((criarMovimentacao semFalhas b req).banco,
          (criarMovimentacao semFalhas b req).resposta) := by
  unfold criarMovimentacao criarMovimentacaoLer
  simp only [semFalhas]
  split
  · split
    · rfl
    · split
      · rfl
      · split
        · rfl
        · split
          · rfl
          · split
            · split
              · exact criarMovimentacaoGravar_duas_etapas _ _ _ _ _ _ _
              · split
                · rfl
                · exact criarMovimentacaoGravar_duas_etapas _ _ _ _ _ _ _
            · exact criarMovimentacaoGravar_duas_etapas _ _ _ _ _ _ _
  · rfl

theorem gravar_tipo (f : Falhas) (b : Banco) (cs : List Chamada) (linha : Movimentacao)
    (op : Operacao) (q : ℚ) (pid : Nat) (corpo : CorpoResposta)
    (captura : Banco → List Chamada → ErroBanco → Resultado)
    (hc : ∀ cs e, (captura b cs e).resposta.status ≠ 201) :
    RegistraTipo b (some linha.tipo_movimentacao) (gravar f b cs linha op q pid corpo captura) := by
  unfold RegistraTipo gravar
  simp only
  split
  · intro h; exact absurd h (hc _ _)
  · split
    · intro h; exact absurd h (hc _ _)
    · intro _; exact ⟨linha, rfl, rfl⟩

theorem abortar_tipo (b : Banco) (cs : List Chamada) (status : Nat) (corpo : CorpoResposta)
    (tipo : Option String) (h : status ≠ 201) :
    RegistraTipo b tipo (abortar b cs status corpo) :=
  fun h2 => absurd h2 h

theorem criarMovimentacaoGravar_tipo (f : Falhas) (b : Banco) (cs : List Chamada)
    (req : Corpo) (pid : Nat) (q : ℚ) (t : String) (produto : Produto) :
    RegistraTipo b (some t) (criarMovimentacaoGravar f b cs req pid q t produto) := by
  unfold criarMovimentacaoGravar
  split
  · exact abortar_tipo _ _ _ _ _ (by decide)
  · exact gravar_tipo f b cs _ _ _ _ _ capturarCriar
      (fun cs e => (capturarCriar_desfecho b cs e).2)

theorem criarMovimentacao_tipo (f : Falhas) (b : Banco) (req : Corpo) :
    RegistraTipo b req.tipo_movimentacao (criarMovimentacao f b req) := by
  unfold criarMovimentacao
  split
  · rename_i pid q t _ _ ht
    rw [ht]
    split
    · exact abortar_tipo _ _ _ _ _ (by decide)
    · split
      · exact abortar_tipo _ _ _ _ _ (by decide)
      · split
        · exact abortar_tipo _ _ _ _ _ (by decide)
        · simp only
          split
          · exact fun h => absurd h (capturarCriar_desfecho _ _ _).2
          · split
            · exact abortar_tipo _ _ _ _ _ (by decide)
            · split
              · split
                · exact criarMovimentacaoGravar_tipo _ _ _ _ _ _ _ _
                · split
                  · exact fun h => absurd h (capturarCriar_desfecho _ _ _).2
                  · split
                    · exact abortar_tipo _ _ _ _ _ (by decide)
                    · exact criarMovimentacaoGravar_tipo _ _ _ _ _ _ _ _
              · exact criarMovimentacaoGravar_tipo _ _ _ _ _ _ _ _
  · exact abortar_tipo _ _ _ _ _ (by decide)

theorem entradaEstoque_tipo (f : Falhas) (b : Banco) (req : Corpo) :
    RegistraTipo b (some "ENTRADA") (entradaEstoque f b req) := by
  unfold entradaEstoque
  split
  · split
    · exact abortar_tipo _ _ _ _ _ (by decide)
    · split
      · exact abortar_tipo _ _ _ _ _ (by decide)
      · simp only
        split
        · exact fun h => absurd h (capturar_desfecho _ _).2
        · split
          · exact abortar_tipo _ _ _ _ _ (by decide)
          · exact gravar_tipo f b _ _ _ _ _ _ _ (fun cs _ => (capturar_desfecho b cs).2)
  · exact abortar_tipo _ _ _ _ _ (by decide)

theorem saidaEstoque_tipo (f : Falhas) (b : Banco) (req : Corpo) :
    RegistraTipo b (some "SAIDA") (saidaEstoque f b req) := by
  unfold saidaEstoque
  split
  · split
    · exact abortar_tipo _ _ _ _ _ (by decide)
    · split
      · exact abortar_tipo _ _ _ _ _ (by decide)
      · simp only
        split
        · exact fun h => absurd h (capturar_desfecho _ _).2
        · split
          · exact abortar_tipo _ _ _ _ _ (by decide)
          · split
            · exact abortar_tipo _ _ _ _ _ (by decide)
            · split
              · exact fun h => absurd h (capturar_desfecho _ _).2
              · split
                · exact abortar_tipo _ _ _ _ _ (by decide)
                · exact gravar_tipo f b _ _ _ _ _ _ _
                    (fun cs _ => (capturar_desfecho b cs).2)
  · exact abortar_tipo _ _ _ _ _ (by decide)

/-- A request answered 201 has appended one row of the kind it asked for. -/
theorem atender_tipo (f : Falhas) (b : Banco) (p : Pedido) :
    RegistraTipo b p.tipo (atender f b p) := by
  cases p with
  | criar req => exact criarMovimentacao_tipo f b req
  | entrada req => exact entradaEstoque_tipo f b req
  | saida req => exact saidaEstoque_tipo f b req

theorem somaQuantidades_append (tipo : String) (id : Nat) (ms : List Movimentacao)
    (m : Movimentacao) :
    somaQuantidades tipo id (ms ++ [m]) =
      somaQuantidades tipo id ms +
        (if m.produto_id = id ∧ m.tipo_movimentacao = tipo then m.quantidade else 0) := by
  unfold somaQuantidades
  by_cases h : m.produto_id = id ∧ m.tipo_movimentacao = tipo
  · simp [List.filter_append, List.filter_cons, h]
  · simp [List.filter_append, List.filter_cons, h]

/-- A committed admissible movement keeps the stock counter consistent with the rows. -/
theorem efeito_coerente (b : Banco) (linha : Movimentacao) (op : Operacao) (id : Nat) (s0 : ℚ)
    (ha : Admissivel b linha op) (hc : Coerente b id s0) :
    Coerente (efeito b linha op) id s0 := by
  obtain ⟨_, p, hp, hk⟩ := ha
  unfold Coerente estoqueDe at *
  simp only [efeito, aplicarUpdate, somaQuantidades_append]
  by_cases hid : id = linha.produto_id
  · subst hid
    rw [hp] at hc
    simp only [Option.map_some', Option.some.injEq] at hc
    rcases hk with ⟨hop, ht⟩ | ⟨hop, ht, _⟩
    · subst hop
      simp [hp, ht, hc]
      ring
    · subst hop
      simp [hp, ht, hc]
      ring
  · have hid2 : ¬ linha.produto_id = id := fun h => hid h.symm
    simp [hid, hid2, hc]

/-- A committed admissible movement keeps every stock non-negative. -/
theorem efeito_naoNegativo (b : Banco) (linha : Movimentacao) (op : Operacao)
    (ha : Admissivel b linha op) (hn : EstoqueNaoNegativo b) :
    EstoqueNaoNegativo (efeito b linha op) := by
  obtain ⟨hq, p, hp, hk⟩ := ha
  intro id p2 h2
  simp only [efeito, aplicarUpdate] at h2
  by_cases hid : id = linha.produto_id
  · subst hid
    rw [if_pos rfl, hp] at h2
    simp only [Option.map_some', Option.some.injEq] at h2
    have h0 := hn _ p hp
    subst h2
    rcases hk with ⟨hop, _⟩ | ⟨hop, _, hs⟩
    · subst hop
      simp only
      linarith
    · subst hop
      simp only
      linarith
  · rw [if_neg hid] at h2
    exact hn id p2 h2

theorem executar_coerente (id : Nat) (s0 : ℚ) (ps : List (Falhas × Pedido)) :
    ∀ b : Banco, Coerente b id s0 → Coerente (executar b ps) id s0 := by
  induction ps with
  | nil => intro b h; exact h
  | cons fp resto ih =>
    intro b h
    simp only [executar]
    apply ih
    rcases atender_desfecho fp.1 b fp.2 with ⟨he, _⟩ | ⟨linha, op, ha, _, he, _⟩
    · rw [he]; exact h
    · rw [he]; exact efeito_coerente b linha op id s0 ha h

/-- With exact arithmetic in the store (every column keeping the number handed to it):
starting from a store where the product has stock `s0` and no movement row, after any
finite sequence of requests the stock of the product is `s0` plus the recorded ENTRADA
quantities minus the recorded SAIDA quantities of that product. -/
theorem executar_historico_exato (b : Banco) (id : Nat) (p0 : Produto)
    (hp : b.produtos id = some p0) (hm : ∀ m ∈ b.movimentacoes, m.produto_id ≠ id)
    (ps : List (Falhas × Pedido)) :
    estoqueDe (executar b ps) id =
      some (p0.estoque
        + somaQuantidades "ENTRADA" id (executar b ps).movimentacoes
        - somaQuantidades "SAIDA" id (executar b ps).movimentacoes) := by
  have hvazio : ∀ tipo : String,
      (b.movimentacoes.filter fun m => m.produto_id = id ∧ m.tipo_movimentacao = tipo) = [] := by
    intro tipo
    rw [List.filter_eq_nil_iff]
    intro m hmem
    simp [hm m hmem]
  have hzero : ∀ tipo : String, somaQuantidades tipo id b.movimentacoes = 0 := by
    intro tipo
    unfold somaQuantidades
    rw [hvazio tipo]
    rfl
  have h0 : Coerente b id p0.estoque := by
    simp [Coerente, estoqueDe, hp, hzero]
  exact executar_coerente id p0.estoque ps b h0

/-- A run with exact arithmetic in the store, evaluated: a stock-in of 5, a sale of 7, a
sale of 11 (refused) and a stock-in of one unit and a half on a product with stock 10
record three rows and end at 10 + 5 - 7 + 3/2. -/
theorem executar_exemplo :
    estoqueDe (executar bancoExemplo
        [(semFalhas, .entrada entradaExemplo), (semFalhas, .saida vendaExemplo),
          (semFalhas, .criar vendaGrande), (semFalhas, .criar entradaFracionada)]) 1
      = some (19 / 2) ∧
    (executar bancoExemplo
        [(semFalhas, .entrada entradaExemplo), (semFalhas, .saida vendaExemplo),
          (semFalhas, .criar vendaGrande),
          (semFalhas, .criar entradaFracionada)]).movimentacoes
      = [⟨1, none, 5, "ENTRADA", some 2, none, none⟩,
          ⟨1, some 1, 7, "SAIDA", some 2, some 14, none⟩,
          ⟨1, none, 3 / 2, "ENTRADA", none, none, none⟩] := by
  constructor <;>
    norm_num [executar, atender, criarMovimentacao, criarMovimentacaoGravar, entradaEstoque,
      saidaEstoque, entradaExemplo, vendaExemplo, vendaGrande, entradaFracionada,
      bancoExemplo, semFalhas, gravar, abortar,
      aplicarInsert, aplicarUpdate, estoqueDe, valorTotal, precoOuNull, clienteOuNull,
      observacoesOuNull, truthyNum, truthyId, truthyStr,
      show ¬ ("ENTRADA" = "") by decide, show ¬ ("ENTRADA" = "SAIDA") by decide,
      show ¬ ("SAIDA" = "") by decide, show ¬ ("SAIDA" = "ENTRADA") by decide]

/-- With exact arithmetic in the store: what one request changes. Other products, the
customers and the rows already recorded are untouched; an answer 201 goes with exactly one
appended row, for the product, the quantity and the kind the request names, and with the
stock of that product moved by that quantity; any other answer goes with the store as it
was. -/
theorem atender_efeito_exato (f : Falhas) (b : Banco) (p : Pedido) :
    (∀ id, p.corpo.produto_id ≠ some id →
      (atender f b p).banco.produtos id = b.produtos id) ∧
    (atender f b p).banco.clientes = b.clientes ∧
    (∃ novas, (atender f b p).banco.movimentacoes = b.movimentacoes ++ novas) ∧
    ((atender f b p).resposta.status = 201 →
      ∃ linha pid q p0,
        p.corpo.produto_id = some pid ∧ p.corpo.quantidade = some q ∧
        b.produtos pid = some p0 ∧
        (atender f b p).banco.movimentacoes = b.movimentacoes ++ [linha] ∧
        linha.produto_id = pid ∧ linha.quantidade = q ∧
        some linha.tipo_movimentacao = p.tipo ∧
        ((linha.tipo_movimentacao = "ENTRADA" ∧
            (atender f b p).banco.produtos pid
              = some { p0 with estoque := p0.estoque + q }) ∨
          (linha.tipo_movimentacao = "SAIDA" ∧
            (atender f b p).banco.produtos pid
              = some { p0 with estoque := p0.estoque - q }))) ∧
    ((atender f b p).resposta.status ≠ 201 → (atender f b p).banco = b) := by
  have ht := atender_tipo f b p
  rcases atender_desfecho f b p with ⟨he, hs⟩ | ⟨linha, op, ha, ⟨hpid, hq, _⟩, he, hs⟩
  · refine ⟨?_, ?_, ⟨[], ?_⟩, ?_, ?_⟩
    · intro id _; rw [he]
    · rw [he]
    · rw [he, List.append_nil]
    · intro h; exact absurd h hs
    · intro _; exact he
  · obtain ⟨_, p0, hp0, hk⟩ := ha
    refine ⟨?_, ?_, ⟨[linha], ?_⟩, ?_, ?_⟩
    · intro id hid
      have hne : ¬ id = linha.produto_id := by
        intro h
        exact hid (by rw [hpid, h])
      rw [he]
      simp only [efeito, aplicarUpdate, if_neg hne]
    · rw [he]; rfl
    · rw [he]; rfl
    · intro _
      obtain ⟨linha2, hm2, ht2⟩ := ht hs
      have hmov : (atender f b p).banco.movimentacoes = b.movimentacoes ++ [linha] := by
        rw [he]; rfl
      have hl : linha2 = linha := by
        have h1 : b.movimentacoes ++ [linha2] = b.movimentacoes ++ [linha] := by
          rw [← hm2, hmov]
        have h2 := List.append_cancel_left h1
        simpa using h2
      subst hl
      refine ⟨linha2, linha2.produto_id, linha2.quantidade, p0, hpid, hq, hp0, hmov,
        rfl, rfl, ht2, ?_⟩
      rcases hk with ⟨hop, hte⟩ | ⟨hop, hts, _⟩
      · left
        refine ⟨hte, ?_⟩
        rw [he]
        simp only [efeito, aplicarUpdate, hp0, hop, Option.map_some', if_true]
      · right
        refine ⟨hts, ?_⟩
        rw [he]
        simp only [efeito, aplicarUpdate, hp0, hop, Option.map_some', if_true]
    · intro h; exact absurd hs h

theorem arredondar_inteiro (n : ℤ) : arredondar (n : ℚ) = n := by
  have h : ∀ m : ℤ, ⌊(m : ℚ) + 1 / 2⌋ = m := by
    intro m
    rw [Int.floor_eq_iff]
    constructor
    · linarith
    · linarith
  unfold arredondar
  split
  · exact h n
  · have h2 : -(n : ℚ) + 1 / 2 = ((-n : ℤ) : ℚ) + 1 / 2 := by push_cast; ring
    rw [h2, h (-n)]
    simp

theorem arredondar_tres_meios : arredondar (3 / 2) = 2 := by
  unfold arredondar
  rw [if_pos (by norm_num), Int.floor_eq_iff]
  constructor <;> norm_num

theorem arredondar_dezenove_meios : arredondar (19 / 2) = 10 := by
  unfold arredondar
  rw [if_pos (by norm_num), Int.floor_eq_iff]
  constructor <;> norm_num

/-- Integer columns keep a store of integers as it is. -/
theorem guardar_inteiro (col : ℚ → ℤ) (hcol : ∀ n : ℤ, col n = n) (b : Banco)
    (hb : Inteiro b) : guardar col b = b := by
  obtain ⟨hp, hm⟩ := hb
  obtain ⟨produtos, clientes, movs⟩ := b
  simp only [guardar, Banco.mk.injEq, and_true, true_and]
  constructor
  · funext i
    cases h : produtos i with
    | none => rfl
    | some p =>
      obtain ⟨n, hn⟩ := hp i p h
      obtain ⟨nome, estoque⟩ := p
      simp only at hn
      subst hn
      simp [hcol]
  · have hmap : ∀ m ∈ movs,
        ({ m with quantidade := (col m.quantidade : ℚ) } : Movimentacao) = m := by
      intro m hmem
      obtain ⟨n, hn⟩ := hm m hmem
      obtain ⟨a, c, q, t, pr, v, o⟩ := m
      simp only at hn
      subst hn
      simp [hcol]
    calc List.map (fun m => ({ m with quantidade := (col m.quantidade : ℚ) } : Movimentacao)) movs
        = List.map id movs := List.map_congr_left hmap
      _ = movs := List.map_id movs

theorem efeito_inteiro (b : Banco) (linha : Movimentacao) (op : Operacao)
    (hb : Inteiro b) (hl : ∃ n : ℤ, linha.quantidade = n) :
    Inteiro (efeito b linha op) := by
  obtain ⟨hp, hm⟩ := hb
  obtain ⟨k, hk⟩ := hl
  constructor
  · intro id p h
    simp only [efeito, aplicarUpdate] at h
    by_cases hid : id = linha.produto_id
    · rw [if_pos hid] at h
      cases h0 : b.produtos id with
      | none => rw [h0] at h; cases h
      | some p0 =>
        rw [h0] at h
        simp only [Option.map_some', Option.some.injEq] at h
        obtain ⟨n, hn⟩ := hp id p0 h0
        subst h
        cases op with
        | mais => exact ⟨n + k, by simp [hn, hk]⟩
        | menos => exact ⟨n - k, by simp [hn, hk]⟩
    · rw [if_neg hid] at h
      exact hp id p h
  · intro m hmem
    simp only [efeito, List.mem_append, List.mem_singleton] at hmem
    rcases hmem with hmem | hmem
    · exact hm m hmem
    · subst hmem; exact ⟨k, hk⟩

/-- A request with an integer quantity leaves a store of integers a store of integers. -/
theorem atender_inteiro (f : Falhas) (b : Banco) (p : Pedido) (hb : Inteiro b)
    (hq : QuantidadeInteira p) : Inteiro (atender f b p).banco := by
  rcases atender_desfecho f b p with ⟨he, _⟩ | ⟨linha, op, _, ⟨_, hql, _⟩, he, _⟩
  · rw [he]; exact hb
  · rw [he]
    exact efeito_inteiro b linha op hb (hq _ hql)

/-- With integer quantities the store with integer columns and the exact store agree. -/
theorem atenderColunas_inteiro (col : ℚ → ℤ) (hcol : ∀ n : ℤ, col n = n) (f : Falhas)
    (b : Banco) (p : Pedido) (hb : Inteiro b) (hq : QuantidadeInteira p) :
    (atenderColunas col f b p).banco = (atender f b p).banco :=
  guardar_inteiro col hcol _ (atender_inteiro f b p hb hq)

theorem executarColunas_inteiro (col : ℚ → ℤ) (hcol : ∀ n : ℤ, col n = n)
    (ps : List (Falhas × Pedido)) :
    ∀ b : Banco, Inteiro b → (∀ fp ∈ ps, QuantidadeInteira fp.2) →
      executarColunas col b ps = executar b ps := by
  induction ps with
  | nil => intro b _ _; rfl
  | cons fp resto ih =>
    intro b hb hq
    have hq1 : QuantidadeInteira fp.2 := hq fp (List.mem_cons_self _ _)
    simp only [executarColunas, executar]
    rw [atenderColunas_inteiro col hcol fp.1 b fp.2 hb hq1]
    exact ih _ (atender_inteiro fp.1 b fp.2 hb hq1)
      (fun x hx => hq x (List.mem_cons_of_mem _ hx))

theorem bancoExemplo_inteiro : Inteiro bancoExemplo := by
  constructor
  · intro id p h
    simp only [bancoExemplo] at h
    split at h
    · simp only [Option.some.injEq] at h
      subst h
      exact ⟨10, by norm_num⟩
    · cases h
  · intro m h
    cases h

theorem bancoOnze_inteiro : Inteiro bancoOnze := by
  constructor
  · intro id p h
    simp only [bancoOnze] at h
    split at h
    · simp only [Option.some.injEq] at h
      subst h
      exact ⟨11, by norm_num⟩
    · cases h
  · intro m h
    cases h

/-! ## C1: the stock counter agrees with the recorded movements -/

/-- C1, as stated, fails on a store whose stock and quantity columns are integer: the
handlers do not test that a quantity is an integer. On a product with stock 11 and no
movement row, a sale of one unit and a half is answered 201; the row keeps quantity 2,
the stock keeps 10 (the nearest integer of 11 - 3/2), and 10 is not 11 - 2. The two
roundings are the same when halves go to the even neighbour. -/
theorem estoque_igual_historico_contraexemplo :
    Inteiro bancoOnze ∧
    bancoOnze.produtos 1 = some ⟨"Papel A4", 11⟩ ∧
    bancoOnze.movimentacoes = [] ∧
    (atender semFalhas bancoOnze (.saida vendaFracionada)).resposta.status = 201 ∧
    (executarColunas arredondar bancoOnze [(semFalhas, .saida vendaFracionada)]).movimentacoes
      = [⟨1, some 1, 2, "SAIDA", none, none, none⟩] ∧
    estoqueDe (executarColunas arredondar bancoOnze [(semFalhas, .saida vendaFracionada)]) 1
      = some 10 ∧
    estoqueDe (executarColunas arredondar bancoOnze [(semFalhas, .saida vendaFracionada)]) 1
      ≠ some ((Produto.mk "Papel A4" 11).estoque
        + somaQuantidades "ENTRADA" 1
            (executarColunas arredondar bancoOnze
              [(semFalhas, .saida vendaFracionada)]).movimentacoes
        - somaQuantidades "SAIDA" 1
            (executarColunas arredondar bancoOnze
              [(semFalhas, .saida vendaFracionada)]).movimentacoes) := by
  have hs : (atender semFalhas bancoOnze (.saida vendaFracionada)).resposta.status = 201 := by
    norm_num [atender, saidaEstoque, vendaFracionada, bancoOnze, semFalhas, gravar]
  have hm : (executarColunas arredondar bancoOnze
      [(semFalhas, .saida vendaFracionada)]).movimentacoes
        = [⟨1, some 1, 2, "SAIDA", none, none, none⟩] := by
    norm_num [executarColunas, atenderColunas, guardar, atender, saidaEstoque,
      vendaFracionada, bancoOnze, semFalhas, gravar, aplicarInsert, valorTotal, precoOuNull,
      observacoesOuNull, truthyNum, truthyStr, arredondar_tres_meios]
  have he : estoqueDe (executarColunas arredondar bancoOnze
      [(semFalhas, .saida vendaFracionada)]) 1 = some 10 := by
    norm_num [executarColunas, atenderColunas, guardar, atender, saidaEstoque,
      vendaFracionada, bancoOnze, semFalhas, gravar, aplicarInsert, aplicarUpdate, estoqueDe,
      arredondar_dezenove_meios]
  refine ⟨bancoOnze_inteiro, rfl, rfl, hs, hm, he, ?_⟩
  rw [he, hm]
  norm_num [somaQuantidades, List.filter_cons, show ¬ ("SAIDA" = "ENTRADA") by decide]

/-- C1, amended: on a store whose stock and quantity columns are integer, starting from a
store where the product has stock `s0` and no movement row, after any finite sequence of
requests to the three writing handlers executed one after another (any mix, any outcome,
any refused statement) whose quantities are integers, the stock of the product is `s0`
plus the recorded ENTRADA quantities minus the recorded SAIDA quantities of that product. -/
theorem estoque_igual_historico (col : ℚ → ℤ) (hcol : ∀ n : ℤ, col n = n)
    (b : Banco) (hb : Inteiro b) (id : Nat) (p0 : Produto)
    (hp : b.produtos id = some p0) (hm : ∀ m ∈ b.movimentacoes, m.produto_id ≠ id)
    (ps : List (Falhas × Pedido)) (hq : ∀ fp ∈ ps, QuantidadeInteira fp.2) :
    estoqueDe (executarColunas col b ps) id =
      some (p0.estoque
        + somaQuantidades "ENTRADA" id (executarColunas col b ps).movimentacoes
        - somaQuantidades "SAIDA" id (executarColunas col b ps).movimentacoes) := by
  rw [executarColunas_inteiro col hcol ps b hb hq]
  exact executar_historico_exato b id p0 hp hm ps

/-- C1, amended, at a concrete run on integer columns that round to the nearest integer:
a stock-in of 5, a sale of 7 and a sale of 11 (refused) on a product with stock 10 leave
stock 8 with one ENTRADA row of 5 and one SAIDA row of 7. -/
theorem estoque_igual_historico_witness :
    Inteiro bancoExemplo ∧
    bancoExemplo.produtos 1 = some ⟨"Papel A4", 10⟩ ∧
    (∀ m ∈ bancoExemplo.movimentacoes, m.produto_id ≠ 1) ∧
    estoqueDe (executarColunas arredondar bancoExemplo
        [(semFalhas, .entrada entradaExemplo), (semFalhas, .saida vendaExemplo),
          (semFalhas, .criar vendaGrande)]) 1 = some 8 ∧
    estoqueDe (executarColunas arredondar bancoExemplo
        [(semFalhas, .entrada entradaExemplo), (semFalhas, .saida vendaExemplo),
          (semFalhas, .criar vendaGrande)]) 1 =
      some ((Produto.mk "Papel A4" 10).estoque
        + somaQuantidades "ENTRADA" 1 (executarColunas arredondar bancoExemplo
            [(semFalhas, .entrada entradaExemplo), (semFalhas, .saida vendaExemplo),
              (semFalhas, .criar vendaGrande)]).movimentacoes
        - somaQuantidades "SAIDA" 1 (executarColunas arredondar bancoExemplo
            [(semFalhas, .entrada entradaExemplo), (semFalhas, .saida vendaExemplo),
              (semFalhas, .criar vendaGrande)]).movimentacoes) :=
  have hm : ∀ m ∈ bancoExemplo.movimentacoes, m.produto_id ≠ 1 := by
    intro m h
    cases h
  have hq : ∀ fp ∈ [((semFalhas, Pedido.entrada entradaExemplo) : Falhas × Pedido),
      (semFalhas, .saida vendaExemplo), (semFalhas, .criar vendaGrande)],
      QuantidadeInteira fp.2 := by
    intro fp hfp q hqq
    simp only [List.mem_cons, List.mem_singleton, List.not_mem_nil, or_false] at hfp
    rcases hfp with rfl | rfl | rfl
    · exact ⟨5, by simpa [Pedido.corpo, entradaExemplo] using hqq.symm⟩
    · exact ⟨7, by simpa [Pedido.corpo, vendaExemplo] using hqq.symm⟩
    · exact ⟨11, by simpa [Pedido.corpo, vendaGrande] using hqq.symm⟩
  have h8 : estoqueDe (executarColunas arredondar bancoExemplo
      [(semFalhas, .entrada entradaExemplo), (semFalhas, .saida vendaExemplo),
        (semFalhas, .criar vendaGrande)]) 1 = some 8 := by
    rw [executarColunas_inteiro arredondar arredondar_inteiro _ _ bancoExemplo_inteiro hq]
    norm_num [executar, atender, criarMovimentacao, criarMovimentacaoGravar, entradaEstoque,
      saidaEstoque, entradaExemplo, vendaExemplo, vendaGrande, bancoExemplo, semFalhas,
      gravar, abortar, aplicarInsert, aplicarUpdate, estoqueDe,
      show ¬ ("SAIDA" = "") by decide]
  ⟨bancoExemplo_inteiro, rfl, hm, h8,
    estoque_igual_historico arredondar arredondar_inteiro bancoExemplo
    bancoExemplo_inteiro 1 ⟨"Papel A4", 10⟩ rfl hm _ hq⟩

/-! ## C2: the stock never becomes negative -/

/-- C2: if no product of the store has a negative stock, then after any one request to
`criarMovimentacao`, `entradaEstoque` or `saidaEstoque` (whatever the outcome) no
product has a negative stock. -/
theorem estoque_nunca_negativo (b : Banco) (hn : EstoqueNaoNegativo b)
    (f : Falhas) (p : Pedido) :
    EstoqueNaoNegativo (atender f b p).banco := by
  rcases atender_desfecho f b p with ⟨he, _⟩ | ⟨linha, op, ha, _, he, _⟩
  · rw [he]; exact hn
  · rw [he]; exact efeito_naoNegativo b linha op ha hn

theorem bancoExemplo_naoNegativo : EstoqueNaoNegativo bancoExemplo := by
  intro id p h
  simp only [bancoExemplo] at h
  split at h
  · simp only [Option.some.injEq] at h
    subst h
    norm_num
  · cases h

/-- C2 at a concrete request: a sale of 7 on a product with stock 10. -/
theorem estoque_nunca_negativo_witness :
    EstoqueNaoNegativo bancoExemplo ∧
    EstoqueNaoNegativo (atender semFalhas bancoExemplo (.saida vendaExemplo)).banco :=
  ⟨bancoExemplo_naoNegativo,
    estoque_nunca_negativo bancoExemplo bancoExemplo_naoNegativo semFalhas (.saida vendaExemplo)⟩

/-! ## C3: an exit larger than the stock is refused -/

/-- C3: an exit request with its required fields, a positive quantity, an existing product
and, where one is supplied, an existing customer, whose quantity exceeds the stock of the
product, is answered 400 with the insufficient-stock body, and the store is the one before
the call (no row inserted, no stock changed). This holds for `criarMovimentacao` with kind
SAIDA and for `saidaEstoque` (which needs its customer field; it does not get as far as
looking the customer up). -/
theorem saida_maior_que_estoque (b : Banco) (req : Corpo) (pid : Nat) (q : ℚ) (p : Produto)
    (hpid : req.produto_id = some pid) (hpid0 : pid ≠ 0)
    (hq : req.quantidade = some q) (hq0 : 0 < q)
    (hp : b.produtos pid = some p)
    (hc : ∀ cid, req.cliente_id = some cid → cid ≠ 0 → ∃ c, b.clientes cid = some c)
    (hlt : p.estoque < q) :
    (req.tipo_movimentacao = some "SAIDA" →
      (criarMovimentacao semFalhas b req).resposta
          = ⟨400, .estoqueInsuficiente p.estoque (some q)⟩ ∧
      (criarMovimentacao semFalhas b req).banco = b) ∧
    (truthyId req.cliente_id = true →
      (saidaEstoque semFalhas b req).resposta = ⟨400, .estoqueInsuficiente p.estoque none⟩ ∧
      (saidaEstoque semFalhas b req).banco = b) := by
  have hq1 : q ≠ 0 := ne_of_gt hq0
  have hq2 : ¬ q ≤ 0 := not_le.mpr hq0
  constructor
  · intro ht
    unfold criarMovimentacao
    rw [hpid, hq, ht]
    simp only [hpid0, hq1, hq2, semFalhas, hp, false_or, or_true, not_true_eq_false,
      if_false, String.reduceEq]
    cases hcl : req.cliente_id with
    | none =>
      simp [criarMovimentacaoGravar, hlt, abortar]
    | some cid =>
      by_cases h0 : cid = 0
      · simp [h0, criarMovimentacaoGravar, hlt, abortar]
      · obtain ⟨c, hcc⟩ := hc cid hcl h0
        simp [h0, hcc, criarMovimentacaoGravar, hlt, abortar]
  · intro hcl
    cases hcid : req.cliente_id with
    | none => rw [hcid] at hcl; simp [truthyId] at hcl
    | some cid =>
      rw [hcid] at hcl
      have h0 : cid ≠ 0 := by simpa [truthyId] using hcl
      unfold saidaEstoque
      rw [hpid, hq, hcid]
      simp [hpid0, hq1, hq2, h0, semFalhas, hp, hlt, abortar]

/-- C3 at a concrete request: 11 units asked of a product with stock 10. -/
theorem saida_maior_que_estoque_witness :
    (Produto.mk "Papel A4" 10).estoque < 11 ∧
    (criarMovimentacao semFalhas bancoExemplo vendaGrande).resposta
        = ⟨400, .estoqueInsuficiente 10 (some 11)⟩ ∧
    (criarMovimentacao semFalhas bancoExemplo vendaGrande).banco = bancoExemplo ∧
    (saidaEstoque semFalhas bancoExemplo vendaGrande).resposta
        = ⟨400, .estoqueInsuficiente 10 none⟩ ∧
    (saidaEstoque semFalhas bancoExemplo vendaGrande).banco = bancoExemplo :=
  have hc : ∀ cid, vendaGrande.cliente_id = some cid → cid ≠ 0 →
      ∃ c, bancoExemplo.clientes cid = some c := by
    intro cid h _
    cases h
    exact ⟨⟨"Ana"⟩, rfl⟩
  have h := saida_maior_que_estoque bancoExemplo vendaGrande 1 11 ⟨"Papel A4", 10⟩
    rfl (by decide) rfl (by decide) rfl hc (by decide)
  ⟨by decide, (h.1 rfl).1, (h.1 rfl).2, (h.2 rfl).1, (h.2 rfl).2⟩

/-! ## C4: two exits at once -/

/-- C4 on the code: two sales of 7 units of a product with stock 10, scheduled as check of
the first, check of the second, writes of the first, writes of the second. Both checks see
stock 10 and pass; the `UPDATE` has no condition on the stock; both requests are answered
201 and the stock ends at -4. The same holds for `criarMovimentacao` with kind SAIDA. -/
theorem vendas_concorrentes :
    ((intercalar saidaEstoqueLer vendaSete vendaSete [false, true, false, true]
        ⟨bancoExemplo, .aguardando, .aguardando⟩).primeira
        = .terminado ⟨201, .vendaRegistrada "Papel A4" "Ana" 7 none⟩ ∧
      (intercalar saidaEstoqueLer vendaSete vendaSete [false, true, false, true]
        ⟨bancoExemplo, .aguardando, .aguardando⟩).segunda
        = .terminado ⟨201, .vendaRegistrada "Papel A4" "Ana" 7 none⟩ ∧
      estoqueDe (intercalar saidaEstoqueLer vendaSete vendaSete [false, true, false, true]
        ⟨bancoExemplo, .aguardando, .aguardando⟩).banco 1 = some (-4)) ∧
    ((intercalar criarMovimentacaoLer vendaSete vendaSete [false, true, false, true]
        ⟨bancoExemplo, .aguardando, .aguardando⟩).primeira
        = .terminado ⟨201, .movimentacaoRegistrada "SAIDA" "Papel A4"⟩ ∧
      (intercalar criarMovimentacaoLer vendaSete vendaSete [false, true, false, true]
        ⟨bancoExemplo, .aguardando, .aguardando⟩).segunda
        = .terminado ⟨201, .movimentacaoRegistrada "SAIDA" "Papel A4"⟩ ∧
      estoqueDe (intercalar criarMovimentacaoLer vendaSete vendaSete [false, true, false, true]
        ⟨bancoExemplo, .aguardando, .aguardando⟩).banco 1 = some (-4)) := by
  refine ⟨⟨?_, ?_, ?_⟩, ⟨?_, ?_, ?_⟩⟩ <;>
    norm_num [intercalar, passo, saidaEstoqueLer, criarMovimentacaoLer,
      criarMovimentacaoLerEstoque, vendaSete, bancoExemplo, efeito,
      aplicarUpdate, estoqueDe, valorTotal, precoOuNull, clienteOuNull,
      observacoesOuNull, truthyNum, truthyId, truthyStr,
      show ¬ ("SAIDA" = "") by decide, show ¬ ("SAIDA" = "ENTRADA") by decide]

/-- The same two sales one after the other: the first is answered 201, the second 400
insufficient stock, and the stock ends at 3. -/
theorem vendas_em_serie :
    (intercalar saidaEstoqueLer vendaSete vendaSete [false, false, true, true]
        ⟨bancoExemplo, .aguardando, .aguardando⟩).primeira
        = .terminado ⟨201, .vendaRegistrada "Papel A4" "Ana" 7 none⟩ ∧
    (intercalar saidaEstoqueLer vendaSete vendaSete [false, false, true, true]
        ⟨bancoExemplo, .aguardando, .aguardando⟩).segunda
        = .terminado ⟨400, .estoqueInsuficiente 3 none⟩ ∧
    estoqueDe (intercalar saidaEstoqueLer vendaSete vendaSete [false, false, true, true]
        ⟨bancoExemplo, .aguardando, .aguardando⟩).banco 1 = some 3 := by
  refine ⟨?_, ?_, ?_⟩ <;>
    norm_num [intercalar, passo, saidaEstoqueLer, vendaSete, bancoExemplo, efeito,
      aplicarUpdate, estoqueDe, valorTotal, precoOuNull, observacoesOuNull, truthyNum,
      truthyStr]

/-! ## C5: the total value of a recorded row -/

/-- C5 on the code, at the claim's own example: a stock-in of 5 units at unit price 2 on a
product with stock 0. `entradaEstoque` answers 201 and leaves stock 5, but the row it
records has no total value: its `INSERT` does not name the column. `criarMovimentacao`
with kind ENTRADA records total value 10 for the same body. With unit price 0 the
expression `preco_unitario ? ... : null` takes the price for absent: the row of
`criarMovimentacao` has neither unit price nor total value. -/
theorem entradaEstoque_sem_valor_total :
    ((entradaEstoque semFalhas bancoSemEstoque entradaExemplo).resposta.status = 201 ∧
      estoqueDe (entradaEstoque semFalhas bancoSemEstoque entradaExemplo).banco 1 = some 5 ∧
      (entradaEstoque semFalhas bancoSemEstoque entradaExemplo).banco.movimentacoes
        = [⟨1, none, 5, "ENTRADA", some 2, none, none⟩]) ∧
    ((criarMovimentacao semFalhas bancoSemEstoque entradaExemplo).resposta.status = 201 ∧
      estoqueDe (criarMovimentacao semFalhas bancoSemEstoque entradaExemplo).banco 1 = some 5 ∧
      (criarMovimentacao semFalhas bancoSemEstoque entradaExemplo).banco.movimentacoes
        = [⟨1, none, 5, "ENTRADA", some 2, some 10, none⟩]) ∧
    ((criarMovimentacao semFalhas bancoSemEstoque entradaPrecoZero).resposta.status = 201 ∧
      (criarMovimentacao semFalhas bancoSemEstoque entradaPrecoZero).banco.movimentacoes
        = [⟨1, none, 5, "ENTRADA", none, none, none⟩]) := by
  refine ⟨⟨?_, ?_, ?_⟩, ⟨?_, ?_, ?_⟩, ⟨?_, ?_⟩⟩ <;>
    norm_num [criarMovimentacao, criarMovimentacaoGravar, entradaEstoque,
      entradaExemplo, entradaPrecoZero, bancoSemEstoque, semFalhas, gravar, abortar,
      aplicarInsert, aplicarUpdate, estoqueDe, valorTotal, precoOuNull, clienteOuNull,
      observacoesOuNull, truthyNum, truthyId, truthyStr,
      show ¬ ("ENTRADA" = "") by decide, show ¬ ("ENTRADA" = "SAIDA") by decide]

/-! ## C6: validation failures are answered before any statement is executed -/

/-- C6: a request that fails the validation of its handler (a required field absent or
falsy, a quantity that is zero or negative, or for `criarMovimentacao` a kind other than
ENTRADA and SAIDA) is answered 400, whatever the store would refuse; the handler executes
no statement on its connection (no read of `produtos` or `clientes`, no `INSERT`, no
`UPDATE`), and the store is unchanged. -/
theorem validacao_antes_de_consultar (f : Falhas) (b : Banco) (req : Corpo) :
    (truthyId req.produto_id = false ∨ truthyNum req.quantidade = false ∨
        truthyStr req.tipo_movimentacao = false ∨
        (∃ q, req.quantidade = some q ∧ q ≤ 0) ∨
        (∃ t, req.tipo_movimentacao = some t ∧ t ≠ "ENTRADA" ∧ t ≠ "SAIDA") →
      RejeitadaSemConsulta b (criarMovimentacao f b req)) ∧
    (truthyId req.produto_id = false ∨ truthyNum req.quantidade = false ∨
        (∃ q, req.quantidade = some q ∧ q ≤ 0) →
      RejeitadaSemConsulta b (entradaEstoque f b req)) ∧
    (truthyId req.produto_id = false ∨ truthyNum req.quantidade = false ∨
        truthyId req.cliente_id = false ∨
        (∃ q, req.quantidade = some q ∧ q ≤ 0) →
      RejeitadaSemConsulta b (saidaEstoque f b req)) := by
  refine ⟨?_, ?_, ?_⟩
  · intro h
    unfold criarMovimentacao
    split
    · rename_i pid q t hpid hq ht
      rw [hpid, hq, ht] at h
      simp only [truthyId, truthyNum, truthyStr, bne_eq_false_iff_eq, Option.some.injEq,
        exists_eq_left'] at h
      split
      · exact ⟨rfl, rfl, rfl⟩
      · split
        · exact ⟨rfl, rfl, rfl⟩
        · split
          · exact ⟨rfl, rfl, rfl⟩
          · rename_i h1 h2 h3
            exfalso
            rcases h with h | h | h | h | h
            · exact h1 (Or.inl h)
            · exact h1 (Or.inr (Or.inl h))
            · exact h1 (Or.inr (Or.inr h))
            · exact h3 h
            · rcases not_not.mp h2 with h4 | h4
              · exact h.1 h4
              · exact h.2 h4
    · exact ⟨rfl, rfl, rfl⟩
  · intro h
    unfold entradaEstoque
    split
    · rename_i pid q hpid hq
      rw [hpid, hq] at h
      simp only [truthyId, truthyNum, bne_eq_false_iff_eq, Option.some.injEq,
        exists_eq_left'] at h
      split
      · exact ⟨rfl, rfl, rfl⟩
      · split
        · exact ⟨rfl, rfl, rfl⟩
        · rename_i h1 h3
          exfalso
          rcases h with h | h | h
          · exact h1 (Or.inl h)
          · exact h1 (Or.inr h)
          · exact h3 h
    · exact ⟨rfl, rfl, rfl⟩
  · intro h
    unfold saidaEstoque
    split
    · rename_i pid q cid hpid hq hcid
      rw [hpid, hq, hcid] at h
      simp only [truthyId, truthyNum, bne_eq_false_iff_eq, Option.some.injEq,
        exists_eq_left'] at h
      split
      · exact ⟨rfl, rfl, rfl⟩
      · split
        · exact ⟨rfl, rfl, rfl⟩
        · rename_i h1 h3
          exfalso
          rcases h with h | h | h | h
          · exact h1 (Or.inl h)
          · exact h1 (Or.inr (Or.inl h))
          · exact h1 (Or.inr (Or.inr h))
          · exact h3 h
    · exact ⟨rfl, rfl, rfl⟩

/-- C6 at a concrete request: quantity 0 and kind INVALID. -/
theorem validacao_antes_de_consultar_witness :
    truthyNum pedidoInvalido.quantidade = false ∧
    RejeitadaSemConsulta bancoExemplo (criarMovimentacao semFalhas bancoExemplo pedidoInvalido) ∧
    RejeitadaSemConsulta bancoExemplo (entradaEstoque semFalhas bancoExemplo pedidoInvalido) ∧
    RejeitadaSemConsulta bancoExemplo (saidaEstoque semFalhas bancoExemplo pedidoInvalido) :=
  have hq : truthyNum pedidoInvalido.quantidade = false := by decide
  have h := validacao_antes_de_consultar semFalhas bancoExemplo pedidoInvalido
  ⟨hq, h.1 (Or.inr (Or.inl hq)), h.2.1 (Or.inr (Or.inl hq)), h.2.2 (Or.inr (Or.inl hq))⟩

/-! ## C7: a sale to a customer that does not exist -/

/-- C7, as stated, fails: `saidaEstoque` checks the stock before it looks the customer up.
A sale of 11 units of a product with stock 10 to a customer that does not exist has its
required fields, a positive quantity and an existing product, and is answered 400 with the
insufficient-stock body, not 404. -/
theorem cliente_inexistente_contraexemplo :
    truthyId vendaGrandeClienteInexistente.produto_id = true ∧
    truthyId vendaGrandeClienteInexistente.cliente_id = true ∧
    vendaGrandeClienteInexistente.quantidade = some 11 ∧
    bancoExemplo.produtos 1 = some ⟨"Papel A4", 10⟩ ∧
    bancoExemplo.clientes 99 = none ∧
    (saidaEstoque semFalhas bancoExemplo vendaGrandeClienteInexistente).resposta
      = ⟨400, .estoqueInsuficiente 10 none⟩ ∧
    (saidaEstoque semFalhas bancoExemplo vendaGrandeClienteInexistente).resposta.status
      ≠ 404 := by
  refine ⟨rfl, rfl, rfl, rfl, rfl, ?_, ?_⟩ <;>
    norm_num [saidaEstoque, vendaGrandeClienteInexistente, bancoExemplo, semFalhas, abortar]

/-- C7, amended: for a sale request to `saidaEstoque` with its required fields, a positive
quantity and an existing product, whose customer does not exist: when the quantity does
not exceed the stock of the product the answer is 404 "Cliente não encontrado"; when it
does, the answer is 400 insufficient stock. Either way the store is unchanged. -/
theorem cliente_inexistente (b : Banco) (req : Corpo) (pid cid : Nat) (q : ℚ) (p : Produto)
    (hpid : req.produto_id = some pid) (hpid0 : pid ≠ 0)
    (hcid : req.cliente_id = some cid) (hcid0 : cid ≠ 0)
    (hq : req.quantidade = some q) (hq0 : 0 < q)
    (hp : b.produtos pid = some p)
    (hc : b.clientes cid = none) :
    (saidaEstoque semFalhas b req).banco = b ∧
    (q ≤ p.estoque →
      (saidaEstoque semFalhas b req).resposta = ⟨404, .erro "Cliente não encontrado"⟩) ∧
    (p.estoque < q →
      (saidaEstoque semFalhas b req).resposta = ⟨400, .estoqueInsuficiente p.estoque none⟩) := by
  have hq1 : q ≠ 0 := ne_of_gt hq0
  have hq2 : ¬ q ≤ 0 := not_le.mpr hq0
  unfold saidaEstoque
  rw [hpid, hq, hcid]
  simp only [hpid0, hq1, hq2, hcid0, semFalhas, hp, hc, or_self, if_false]
  refine ⟨?_, ?_, ?_⟩
  · split <;> rfl
  · intro h
    rw [if_neg (not_lt.mpr h)]
    rfl
  · intro h
    rw [if_pos h]
    rfl

/-- C7, amended, at concrete requests: customer 99 does not exist; 7 units are in stock,
11 are not. -/
theorem cliente_inexistente_witness :
    bancoExemplo.clientes 99 = none ∧
    (saidaEstoque semFalhas bancoExemplo vendaClienteInexistente).banco = bancoExemplo ∧
    (saidaEstoque semFalhas bancoExemplo vendaClienteInexistente).resposta
      = ⟨404, .erro "Cliente não encontrado"⟩ ∧
    (saidaEstoque semFalhas bancoExemplo vendaGrandeClienteInexistente).resposta
      = ⟨400, .estoqueInsuficiente 10 none⟩ :=
  have h7 := cliente_inexistente bancoExemplo vendaClienteInexistente 1 99 7 ⟨"Papel A4", 10⟩
    rfl (by decide) rfl (by decide) rfl (by decide) rfl rfl
  have h11 := cliente_inexistente bancoExemplo vendaGrandeClienteInexistente 1 99 11
    ⟨"Papel A4", 10⟩ rfl (by decide) rfl (by decide) rfl (by decide) rfl rfl
  ⟨rfl, h7.1, h7.2.1 (by decide), h11.2.2 (by decide)⟩

/-! ## C8: which quantities are recorded -/

/-- C8, as stated, fails: no handler checks that the quantity is an integer. A quantity of
one and a half passes the validation of the three handlers; each answers 201, inserts a
row with quantity 3/2 and moves the stock of the product by 3/2. -/
theorem quantidade_fracionada_contraexemplo :
    ((criarMovimentacao semFalhas bancoExemplo entradaFracionada).resposta.status = 201 ∧
      (criarMovimentacao semFalhas bancoExemplo entradaFracionada).banco.movimentacoes
        = [⟨1, none, 3 / 2, "ENTRADA", none, none, none⟩] ∧
      estoqueDe (criarMovimentacao semFalhas bancoExemplo entradaFracionada).banco 1
        = some (23 / 2)) ∧
    ((entradaEstoque semFalhas bancoExemplo entradaFracionada).resposta.status = 201 ∧
      (entradaEstoque semFalhas bancoExemplo entradaFracionada).banco.movimentacoes
        = [⟨1, none, 3 / 2, "ENTRADA", none, none, none⟩] ∧
      estoqueDe (entradaEstoque semFalhas bancoExemplo entradaFracionada).banco 1
        = some (23 / 2)) ∧
    ((saidaEstoque semFalhas bancoExemplo vendaFracionada).resposta.status = 201 ∧
      (saidaEstoque semFalhas bancoExemplo vendaFracionada).banco.movimentacoes
        = [⟨1, some 1, 3 / 2, "SAIDA", none, none, none⟩] ∧
      estoqueDe (saidaEstoque semFalhas bancoExemplo vendaFracionada).banco 1
        = some (17 / 2)) := by
  refine ⟨⟨?_, ?_, ?_⟩, ⟨?_, ?_, ?_⟩, ⟨?_, ?_, ?_⟩⟩ <;>
    norm_num [criarMovimentacao, criarMovimentacaoGravar, entradaEstoque, saidaEstoque,
      entradaFracionada, vendaFracionada, bancoExemplo, semFalhas, gravar, abortar,
      aplicarInsert, aplicarUpdate, estoqueDe, valorTotal, precoOuNull, clienteOuNull,
      observacoesOuNull, truthyNum, truthyId, truthyStr,
      show ¬ ("ENTRADA" = "") by decide]

/-- C8, amended: a movement is recorded only for a positive quantity. A request to any of
the three handlers whose quantity is absent, zero or negative is answered 400, and the
store is unchanged (no row inserted, no stock changed). -/
theorem quantidade_nao_positiva (f : Falhas) (b : Banco) (p : Pedido)
    (h : ∀ q, p.corpo.quantidade = some q → q ≤ 0) :
    (atender f b p).resposta.status = 400 ∧ (atender f b p).banco = b := by
  cases p with
  | criar req =>
    simp only [Pedido.corpo] at h
    simp only [atender]
    unfold criarMovimentacao
    split
    · rename_i pid q t hpid hq ht
      have hq0 := h q hq
      split
      · exact ⟨rfl, rfl⟩
      · split
        · exact ⟨rfl, rfl⟩
        · exact ⟨rfl, rfl⟩
    · exact ⟨rfl, rfl⟩
  | entrada req =>
    simp only [Pedido.corpo] at h
    simp only [atender]
    unfold entradaEstoque
    split
    · rename_i pid q hpid hq
      have hq0 := h q hq
      split
      · exact ⟨rfl, rfl⟩
      · exact ⟨rfl, rfl⟩
    · exact ⟨rfl, rfl⟩
  | saida req =>
    simp only [Pedido.corpo] at h
    simp only [atender]
    unfold saidaEstoque
    split
    · rename_i pid q cid hpid hq hcid
      have hq0 := h q hq
      split
      · exact ⟨rfl, rfl⟩
      · exact ⟨rfl, rfl⟩
    · exact ⟨rfl, rfl⟩

/-- C8, amended, at a concrete request: quantity 0. -/
theorem quantidade_nao_positiva_witness :
    pedidoInvalido.quantidade = some 0 ∧
    (atender semFalhas bancoExemplo (.entrada pedidoInvalido)).resposta.status = 400 ∧
    (atender semFalhas bancoExemplo (.entrada pedidoInvalido)).banco = bancoExemplo :=
  have h : ∀ q, (Pedido.entrada pedidoInvalido).corpo.quantidade = some q → q ≤ 0 := by
    intro q hq
    cases hq
    exact le_refl _
  ⟨rfl, quantidade_nao_positiva semFalhas bancoExemplo (.entrada pedidoInvalido) h⟩

/-! ## C9: a movement for a product that does not exist -/

/-- C9: a request that passes the field and range validation of its handler and whose
`produto_id` names no row of `produtos` is answered 404 "Produto não encontrado", and the
store is the one before the call (no row inserted, no stock changed). -/
theorem produto_inexistente (b : Banco) (req : Corpo) (pid : Nat) (q : ℚ)
    (hpid : req.produto_id = some pid) (hpid0 : pid ≠ 0)
    (hq : req.quantidade = some q) (hq0 : 0 < q)
    (hp : b.produtos pid = none) :
    (req.tipo_movimentacao = some "ENTRADA" ∨ req.tipo_movimentacao = some "SAIDA" →
      (criarMovimentacao semFalhas b req).resposta = ⟨404, .erro "Produto não encontrado"⟩ ∧
      (criarMovimentacao semFalhas b req).banco = b) ∧
    ((entradaEstoque semFalhas b req).resposta = ⟨404, .erro "Produto não encontrado"⟩ ∧
      (entradaEstoque semFalhas b req).banco = b) ∧
    (truthyId req.cliente_id = true →
      (saidaEstoque semFalhas b req).resposta = ⟨404, .erro "Produto não encontrado"⟩ ∧
      (saidaEstoque semFalhas b req).banco = b) := by
  have hq1 : q ≠ 0 := ne_of_gt hq0
  have hq2 : ¬ q ≤ 0 := not_le.mpr hq0
  refine ⟨?_, ?_, ?_⟩
  · intro ht
    unfold criarMovimentacao
    rcases ht with ht | ht <;>
    · rw [hpid, hq, ht]
      simp [hpid0, hq1, hq2, semFalhas, hp, abortar]
  · unfold entradaEstoque
    rw [hpid, hq]
    simp [hpid0, hq1, hq2, semFalhas, hp, abortar]
  · intro hcl
    cases hcid : req.cliente_id with
    | none => rw [hcid] at hcl; simp [truthyId] at hcl
    | some cid =>
      rw [hcid] at hcl
      have h0 : cid ≠ 0 := by simpa [truthyId] using hcl
      unfold saidaEstoque
      rw [hpid, hq, hcid]
      simp [hpid0, hq1, hq2, h0, semFalhas, hp, abortar]

/-- C9 at a concrete request: product 2 is not in the store. -/
theorem produto_inexistente_witness :
    bancoExemplo.produtos 2 = none ∧
    (criarMovimentacao semFalhas bancoExemplo vendaProdutoInexistente).resposta
        = ⟨404, .erro "Produto não encontrado"⟩ ∧
    (criarMovimentacao semFalhas bancoExemplo vendaProdutoInexistente).banco = bancoExemplo ∧
    (entradaEstoque semFalhas bancoExemplo vendaProdutoInexistente).resposta
        = ⟨404, .erro "Produto não encontrado"⟩ ∧
    (entradaEstoque semFalhas bancoExemplo vendaProdutoInexistente).banco = bancoExemplo ∧
    (saidaEstoque semFalhas bancoExemplo vendaProdutoInexistente).resposta
        = ⟨404, .erro "Produto não encontrado"⟩ ∧
    (saidaEstoque semFalhas bancoExemplo vendaProdutoInexistente).banco = bancoExemplo :=
  have h := produto_inexistente bancoExemplo vendaProdutoInexistente 2 7
    rfl (by decide) rfl (by decide) rfl
  ⟨rfl, (h.1 (Or.inr rfl)).1, (h.1 (Or.inr rfl)).2, h.2.1.1, h.2.1.2,
    (h.2.2 rfl).1, (h.2.2 rfl).2⟩

/-! ## C10: the unit price of a recorded row -/

/-- C10, as stated, fails: no handler looks at the sign of the unit price. A request with
unit price -2 that is otherwise valid is answered 201 by each of the three handlers, and
the row it records has unit price -2 (and, where the total is computed, total -14). -/
theorem preco_negativo_contraexemplo :
    ((criarMovimentacao semFalhas bancoExemplo vendaPrecoNegativo).resposta.status = 201 ∧
      (criarMovimentacao semFalhas bancoExemplo vendaPrecoNegativo).banco.movimentacoes
        = [⟨1, some 1, 7, "SAIDA", some (-2), some (-14), none⟩]) ∧
    ((entradaEstoque semFalhas bancoExemplo vendaPrecoNegativo).resposta.status = 201 ∧
      (entradaEstoque semFalhas bancoExemplo vendaPrecoNegativo).banco.movimentacoes
        = [⟨1, none, 7, "ENTRADA", some (-2), none, none⟩]) ∧
    ((saidaEstoque semFalhas bancoExemplo vendaPrecoNegativo).resposta.status = 201 ∧
      (saidaEstoque semFalhas bancoExemplo vendaPrecoNegativo).banco.movimentacoes
        = [⟨1, some 1, 7, "SAIDA", some (-2), some (-14), none⟩]) := by
  refine ⟨⟨?_, ?_⟩, ⟨?_, ?_⟩, ⟨?_, ?_⟩⟩ <;>
    norm_num [criarMovimentacao, criarMovimentacaoGravar, entradaEstoque, saidaEstoque,
      vendaPrecoNegativo, bancoExemplo, semFalhas, gravar, abortar,
      aplicarInsert, aplicarUpdate, valorTotal, precoOuNull, clienteOuNull,
      observacoesOuNull, truthyNum, truthyId, truthyStr,
      show ¬ ("SAIDA" = "") by decide, show ¬ ("SAIDA" = "ENTRADA") by decide]

/-- C10, amended: the unit price takes no part in the decision to accept or to reject a
request (with a store that answers every statement, the status of the response is the
same whatever unit price the request carries, a negative one included), and every row a
handler records has a unit price that is null or is the non-zero price the request
supplied. -/
theorem preco_unitario_registrado (f : Falhas) (b : Banco) (p : Pedido) (x : Option ℚ) :
    (atender semFalhas b (p.comPreco x)).resposta.status
      = (atender semFalhas b p).resposta.status ∧
    ((atender f b p).banco.movimentacoes = b.movimentacoes ∨
      ∃ linha, (atender f b p).banco.movimentacoes = b.movimentacoes ++ [linha] ∧
        (linha.preco_unitario = none ∨
          ∃ v, v ≠ 0 ∧ p.corpo.preco_unitario = some v ∧ linha.preco_unitario = some v)) := by
  constructor
  · cases p with
    | criar req => exact criarMovimentacao_status_preco b req x
    | entrada req => exact entradaEstoque_status_preco b req x
    | saida req => exact saidaEstoque_status_preco b req x
  · rcases atender_desfecho f b p with ⟨he, _⟩ | ⟨linha, op, _, ⟨_, _, hpr⟩, he, _⟩
    · left; rw [he]
    · right
      refine ⟨linha, by rw [he]; rfl, ?_⟩
      rcases precoOuNull_casos p.corpo.preco_unitario with h | ⟨v, hv, hx, h⟩
      · left; rw [hpr, h]
      · right; exact ⟨v, hv, hx, by rw [hpr, h]⟩

/-! ## C11: what one request changes -/

/-- C11, as stated, fails on a store whose stock and quantity columns are integer: the
handlers do not test that a quantity is an integer. On a product with stock 11, a sale of
one unit and a half is answered 201; the appended row keeps quantity 2 and the stock
keeps 10, the nearest integer of 11 - 3/2: it has changed by 1, not by the quantity. -/
theorem efeito_de_um_pedido_contraexemplo :
    Inteiro bancoOnze ∧
    vendaFracionada.quantidade = some (3 / 2) ∧
    estoqueDe bancoOnze 1 = some 11 ∧
    (atenderColunas arredondar semFalhas bancoOnze (.saida vendaFracionada)).resposta.status
      = 201 ∧
    (atenderColunas arredondar semFalhas bancoOnze (.saida vendaFracionada)).banco.movimentacoes
      = [⟨1, some 1, 2, "SAIDA", none, none, none⟩] ∧
    estoqueDe (atenderColunas arredondar semFalhas bancoOnze (.saida vendaFracionada)).banco 1
      = some 10 ∧
    estoqueDe (atenderColunas arredondar semFalhas bancoOnze (.saida vendaFracionada)).banco 1
      ≠ some (11 - 3 / 2) := by
  have he : estoqueDe
      (atenderColunas arredondar semFalhas bancoOnze (.saida vendaFracionada)).banco 1
        = some 10 := by
    norm_num [atenderColunas, guardar, atender, saidaEstoque,
      vendaFracionada, bancoOnze, semFalhas, gravar, aplicarInsert, aplicarUpdate, estoqueDe,
      arredondar_dezenove_meios]
  refine ⟨bancoOnze_inteiro, rfl, ?_, ?_, ?_, he, ?_⟩
  · norm_num [estoqueDe, bancoOnze]
  · norm_num [atenderColunas, atender, saidaEstoque, vendaFracionada, bancoOnze, semFalhas,
      gravar]
  · norm_num [atenderColunas, guardar, atender, saidaEstoque,
      vendaFracionada, bancoOnze, semFalhas, gravar, aplicarInsert, valorTotal, precoOuNull,
      observacoesOuNull, truthyNum, truthyStr, arredondar_tres_meios]
  · rw [he]
    norm_num

/-- C11, amended: on a store whose stock and quantity columns are integer, for every
request to `criarMovimentacao`, `entradaEstoque` or `saidaEstoque`, whatever the outcome
and whatever statement the store refuses: every product other than the one named by
`produto_id` keeps its row (its stock included), the customers are untouched, and the
movement rows of the store stay where they were, in order, before whatever is appended.
When the answer is 201, exactly one row is appended, for the product and the kind the
request names; the row keeps what the column keeps of the quantity, and the stock of the
product becomes what the column keeps of the stock before the call plus the quantity
(ENTRADA) or minus the quantity (SAIDA); when the quantity is an integer, the row records
the quantity itself and the stock changes by exactly `+quantidade` or `-quantidade`.
When the answer is anything else, the store is the one before the call. -/
theorem efeito_de_um_pedido (col : ℚ → ℤ) (hcol : ∀ n : ℤ, col n = n)
    (f : Falhas) (b : Banco) (hb : Inteiro b) (p : Pedido) :
    (∀ id, p.corpo.produto_id ≠ some id →
      (atenderColunas col f b p).banco.produtos id = b.produtos id) ∧
    (atenderColunas col f b p).banco.clientes = b.clientes ∧
    (∃ novas, (atenderColunas col f b p).banco.movimentacoes = b.movimentacoes ++ novas) ∧
    ((atenderColunas col f b p).resposta.status = 201 →
      ∃ linha pid q p0 delta,
        p.corpo.produto_id = some pid ∧ p.corpo.quantidade = some q ∧
        b.produtos pid = some p0 ∧
        (atenderColunas col f b p).banco.movimentacoes = b.movimentacoes ++ [linha] ∧
        linha.produto_id = pid ∧
        some linha.tipo_movimentacao = p.tipo ∧
        ((linha.tipo_movimentacao = "ENTRADA" ∧ delta = q) ∨
          (linha.tipo_movimentacao = "SAIDA" ∧ delta = -q)) ∧
        linha.quantidade = (col q : ℚ) ∧
        (atenderColunas col f b p).banco.produtos pid
          = some { p0 with estoque := (col (p0.estoque + delta) : ℚ) } ∧
        ((∃ n : ℤ, q = n) →
          linha.quantidade = q ∧
          (atenderColunas col f b p).banco.produtos pid
            = some { p0 with estoque := p0.estoque + delta })) ∧
    ((atenderColunas col f b p).resposta.status ≠ 201 →
      (atenderColunas col f b p).banco = b) := by
  have hgb := guardar_inteiro col hcol b hb
  obtain ⟨hframe, hcli, ⟨novas, hnovas⟩, hsucc, hfail⟩ := atender_efeito_exato f b p
  have hbm : b.movimentacoes.map
      (fun m => ({ m with quantidade := (col m.quantidade : ℚ) } : Movimentacao))
        = b.movimentacoes := congrArg Banco.movimentacoes hgb
  refine ⟨?_, hcli, ?_, ?_, ?_⟩
  · intro id hid
    have h1 : (guardar col (atender f b p).banco).produtos id = (guardar col b).produtos id := by
      simp only [guardar, hframe id hid]
    exact h1.trans (congrFun (congrArg Banco.produtos hgb) id)
  · refine ⟨novas.map
      (fun m => ({ m with quantidade := (col m.quantidade : ℚ) } : Movimentacao)), ?_⟩
    show (atender f b p).banco.movimentacoes.map _ = _
    rw [hnovas, List.map_append, hbm]
  · intro hs
    obtain ⟨linha, pid, q, p0, hpid, hq, hp0, hmov, hlp, hlq, hlt, hstock⟩ := hsucc hs
    have hmov2 : (atenderColunas col f b p).banco.movimentacoes
        = b.movimentacoes ++ [{ linha with quantidade := (col linha.quantidade : ℚ) }] := by
      show (atender f b p).banco.movimentacoes.map _ = _
      rw [hmov, List.map_append, hbm]
      rfl
    have hst : ∀ x : ℚ, (atender f b p).banco.produtos pid = some { p0 with estoque := x } →
        (atenderColunas col f b p).banco.produtos pid
          = some { p0 with estoque := (col x : ℚ) } := by
      intro x hx
      show ((atender f b p).banco.produtos pid).map _ = _
      rw [hx]
      rfl
    have hint : ∀ delta : ℚ, (delta = q ∨ delta = -q) → (∃ n : ℤ, q = n) →
        ((col (p0.estoque + delta) : ℤ) : ℚ) = p0.estoque + delta := by
      intro delta hd hn
      obtain ⟨n, hn⟩ := hn
      obtain ⟨m, hm⟩ := hb.1 pid p0 hp0
      rcases hd with hd | hd
      · rw [hd, hm, hn]
        have : ((m : ℚ) + (n : ℚ)) = ((m + n : ℤ) : ℚ) := by push_cast; rfl
        rw [this, hcol]
      · rw [hd, hm, hn]
        have : ((m : ℚ) + -(n : ℚ)) = ((m - n : ℤ) : ℚ) := by push_cast; ring
        rw [this, hcol]
    have hqint : (∃ n : ℤ, q = n) → ((col q : ℤ) : ℚ) = q := by
      intro hn
      obtain ⟨n, hn⟩ := hn
      rw [hn, hcol]
    rcases hstock with ⟨hte, hse⟩ | ⟨hts, hse⟩
    · refine ⟨{ linha with quantidade := (col linha.quantidade : ℚ) }, pid, q, p0, q,
        hpid, hq, hp0, hmov2, hlp, hlt, Or.inl ⟨hte, rfl⟩, by rw [hlq], hst _ hse, ?_⟩
      intro hn
      refine ⟨by show ((col linha.quantidade : ℤ) : ℚ) = q; rw [hlq]; exact hqint hn, ?_⟩
      rw [hst _ hse, hint q (Or.inl rfl) hn]
    · have hse2 : (atender f b p).banco.produtos pid
          = some { p0 with estoque := p0.estoque + -q } := by
        rw [hse, sub_eq_add_neg]
      refine ⟨{ linha with quantidade := (col linha.quantidade : ℚ) }, pid, q, p0, -q,
        hpid, hq, hp0, hmov2, hlp, hlt, Or.inr ⟨hts, rfl⟩, by rw [hlq], hst _ hse2, ?_⟩
      intro hn
      refine ⟨by show ((col linha.quantidade : ℤ) : ℚ) = q; rw [hlq]; exact hqint hn, ?_⟩
      rw [hst _ hse2, hint (-q) (Or.inr rfl) hn]
  · intro hs
    show guardar col (atender f b p).banco = b
    rw [hfail hs]
    exact hgb

/-- C11, amended, at concrete requests on integer columns that round to the nearest
integer: on a store with product 1 (stock 10) and customer 1, a sale of 7 units is
answered 201, appends one SAIDA row of 7 and leaves stock 3; a sale of 11 units is
answered 400 and leaves the store as it was. -/
theorem efeito_de_um_pedido_witness :
    Inteiro bancoExemplo ∧
    (atenderColunas arredondar semFalhas bancoExemplo (.saida vendaExemplo)).resposta.status
      = 201 ∧
    (atenderColunas arredondar semFalhas bancoExemplo (.saida vendaExemplo)).banco.movimentacoes
      = bancoExemplo.movimentacoes ++ [⟨1, some 1, 7, "SAIDA", some 2, some 14, none⟩] ∧
    estoqueDe (atenderColunas arredondar semFalhas bancoExemplo (.saida vendaExemplo)).banco 1
      = some 3 ∧
    (atenderColunas arredondar semFalhas bancoExemplo (.saida vendaExemplo)).banco.produtos 2
      = bancoExemplo.produtos 2 ∧
    (atenderColunas arredondar semFalhas bancoExemplo (.saida vendaGrande)).resposta.status
      ≠ 201 ∧
    (atenderColunas arredondar semFalhas bancoExemplo (.saida vendaGrande)).banco
      = bancoExemplo :=
  have h7 := efeito_de_um_pedido arredondar arredondar_inteiro semFalhas bancoExemplo
    bancoExemplo_inteiro (.saida vendaExemplo)
  have h11 := efeito_de_um_pedido arredondar arredondar_inteiro semFalhas bancoExemplo
    bancoExemplo_inteiro (.saida vendaGrande)
  have hq7 : QuantidadeInteira (.saida vendaExemplo) := by
    intro q hq
    exact ⟨7, by simpa [Pedido.corpo, vendaExemplo] using hq.symm⟩
  have hb7 := atenderColunas_inteiro arredondar arredondar_inteiro semFalhas bancoExemplo
    (.saida vendaExemplo) bancoExemplo_inteiro hq7
  have hs11 :
      (atenderColunas arredondar semFalhas bancoExemplo (.saida vendaGrande)).resposta.status
        ≠ 201 := by
    decide
  ⟨bancoExemplo_inteiro, by decide,
    by
      rw [hb7]
      norm_num [atender, saidaEstoque, vendaExemplo, bancoExemplo, semFalhas, gravar,
        aplicarInsert, valorTotal, precoOuNull, observacoesOuNull, truthyNum, truthyStr],
    by
      rw [hb7]
      norm_num [atender, saidaEstoque, vendaExemplo, bancoExemplo, semFalhas, gravar,
        aplicarInsert, aplicarUpdate, estoqueDe],
    h7.1 2 (by decide), hs11, h11.2.2.2.2 hs11⟩

end CraftPaper
